import Mathlib

/-!
Verification development for the financial-document transaction engine of
`public/api.php` (small-business billing application).

The relational store is modelled as lists of typed rows; machine `float`
amounts are modelled as exact rationals (`Rat`); SQL `SELECT ... LIMIT 1`
is `List.find?`, `DELETE ... WHERE` is `List.filter` with the negated
predicate, and `UPDATE ... WHERE` is `List.map` guarded by the predicate.
MySQL `AUTO_INCREMENT` id assignment is modelled by a single fresh-id
counter `next_id` (ids are unique across tables in the model; the claims
never compare ids of different tables, so this is a sound abstraction).

A transaction (`begin_transaction` / `commit` / `rollback` on exception)
is modelled by a write-failure oracle: each write step of the transaction
body may be forced to fail, and any failure returns the pre-transaction
store, which is exactly the observable effect of the rollback in the
source.  Timestamp, notes, and attribution columns do not occur in any
claim and are omitted from the row types.
-/

set_option maxHeartbeats 1600000
set_option maxRecDepth 100000

namespace HelixApi

/-- Error taxonomy of the spec, used to classify the `Exception` messages
thrown by the source (`Validation`, `NotFound`, `StoreFailure`). -/
inductive ApiError
  | validation (msg : String)
  | notFound (msg : String)
  | storeFailure (msg : String)
deriving Repr, DecidableEq

instance {ε α : Type} [DecidableEq ε] [DecidableEq α] : DecidableEq (Except ε α) := fun a b =>
  match a, b with
  | .error e1, .error e2 =>
    if h : e1 = e2 then .isTrue (by rw [h])
    else .isFalse (fun hc => h (by injection hc))
  | .error _, .ok _ => .isFalse (fun hc => Except.noConfusion hc)
  | .ok _, .error _ => .isFalse (fun hc => Except.noConfusion hc)
  | .ok a1, .ok a2 =>
    if h : a1 = a2 then .isTrue (by rw [h])
    else .isFalse (fun hc => h (by injection hc))

/-- Row of `invoices` (columns used by the engine). -/
structure InvoiceRow where
  id : Nat
  company_id : String
  customer_id : String
  invoice_number : String
  status : String
  subtotal : Rat
  tax_amount : Rat
  total_amount : Rat
  paid_amount : Rat
  balance_due : Rat
deriving Repr, DecidableEq

/-- Row of `invoice_items`. -/
structure InvoiceItemRow where
  invoice_id : Nat
  description : String
  quantity : Rat
  unit_price : Rat
  tax_percentage : Rat
  tax_amount : Rat
  line_total : Rat
  sort_order : Nat
deriving Repr, DecidableEq

/-- Row of `payments`. -/
structure PaymentRow where
  id : Nat
  company_id : String
  invoice_id : Nat
  amount : Rat
  payment_method : String
  payment_number : String
  reference_number : Option String
deriving Repr, DecidableEq

/-- Row of `payment_allocations`. -/
structure AllocationRow where
  id : Nat
  payment_id : Nat
  invoice_id : Nat
  amount : Rat
deriving Repr, DecidableEq

/-- Row of `receipts`; `payment_id` and `invoice_id` are nullable columns. -/
structure ReceiptRow where
  id : Nat
  company_id : String
  payment_id : Option Nat
  invoice_id : Option Nat
  receipt_number : String
  total_amount : Rat
  excess_amount : Rat
deriving Repr, DecidableEq

/-- Row of `receipt_items`. -/
structure ReceiptItemRow where
  receipt_id : Nat
  description : String
  quantity : Rat
  unit_price : Rat
  tax_percentage : Rat
  tax_amount : Rat
  line_total : Rat
  sort_order : Nat
deriving Repr, DecidableEq

/-- Row of `payment_audit_log` (columns used by the two cascade deletions). -/
structure AuditLogRow where
  payment_id : Nat
  invoice_id : Option Nat
deriving Repr, DecidableEq

/-- Row of `credit_note_allocations` (only its invoice reference matters here). -/
structure CreditNoteAllocationRow where
  invoice_id : Nat
deriving Repr, DecidableEq

/-- Row of `stock_movements` (only its reference columns matter here). -/
structure StockMovementRow where
  reference_type : String
  reference_id : Nat
deriving Repr, DecidableEq

/-- Row of `document_sequences`: one counter per (document type, year). -/
structure SeqRow where
  document_type : String
  year : Int
  sequence_number : Nat
deriving Repr, DecidableEq

/-- The relational store. -/
structure Store where
  next_id : Nat
  invoices : List InvoiceRow
  invoice_items : List InvoiceItemRow
  payments : List PaymentRow
  payment_allocations : List AllocationRow
  receipts : List ReceiptRow
  receipt_items : List ReceiptItemRow
  payment_audit_log : List AuditLogRow
  credit_note_allocations : List CreditNoteAllocationRow
  stock_movements : List StockMovementRow
  document_sequences : List SeqRow
deriving Repr, DecidableEq

/-! Section: Sequence allocator (lines 1435-1480 and 2156-2229 of api.php) -/

/-- Predicate of the `WHERE document_type = t AND year = y` clauses. -/
def seqKeyMatch (t : String) (y : Int) (r : SeqRow) : Bool :=
  r.document_type == t && r.year == y

/-- Effect of `UPDATE document_sequences SET sequence_number = sequence_number + 1
WHERE document_type = t AND year = y` on one row. -/
def seqIncr (t : String) (y : Int) (r : SeqRow) : SeqRow :=
  if seqKeyMatch t y r then { r with sequence_number := r.sequence_number + 1 } else r

/-- Fresh counter row inserted when no (type, year) row exists yet
(`INSERT INTO document_sequences ... VALUES (t, y, 0)`). -/
def seqRow0 (t : String) (y : Int) : SeqRow :=
  { document_type := t, year := y, sequence_number := 0 }

/-- Read-insert-increment-read counter core shared by the
`get_next_document_number` endpoint and `getNextDocumentNumberInternal`:
if no (type, year) row exists, insert one with `sequence_number = 0`;
increment every matching row by 1 (the UPDATE); re-read the first
matching row (`SELECT ... LIMIT 1`). -/
def allocSeqCore (seqs : List SeqRow) (t : String) (y : Int) : List SeqRow × Nat :=
  let seqs1 := match seqs.find? (seqKeyMatch t y) with
    | some _ => seqs
    | none => seqs ++ [seqRow0 t y]
  let seqs2 := seqs1.map (seqIncr t y)
  match seqs2.find? (seqKeyMatch t y) with
  | some r => (seqs2, r.sequence_number)
  | none => (seqs2, 0)

/-- Current counter value of a (type, year) pair, if the row exists. -/
def seqLookup (seqs : List SeqRow) (t : String) (y : Int) : Option Nat :=
  (seqs.find? (seqKeyMatch t y)).map (fun r => r.sequence_number)

/-- Zero-padding of `sprintf` `%04d`: pad the decimal representation to 4
digits with leading zeros, unbounded beyond 4 digits. -/
def pad4 (n : Nat) : String :=
  let s := toString n
  if s.length < 4 then String.mk (List.replicate (4 - s.length) '0') ++ s else s

/-- Document number format `sprintf` produces: TYPE-YEAR-NNNN. -/
def formatDocNumber (t : String) (y : Int) (n : Nat) : String :=
  t ++ "-" ++ toString y ++ "-" ++ pad4 n

/-- Valid document types of `getNextDocumentNumberInternal` (line 2164). -/
def validDocTypes : List String :=
  ["INV", "PRO", "QT", "PO", "LPO", "DN", "CN", "PAY", "REC", "RA", "REM"]

/-- Valid document types of the `get_next_document_number` endpoint (line 1398). -/
def validDocTypesEndpoint : List String :=
  ["INV", "PRO", "QT", "PO", "LPO", "DN", "CN", "PAY", "REC"]

/-- PHP truthiness of the optional year argument: absent and 0 are falsy
(`if (!$year) { $year = date('Y'); }`). -/
def intArgFalsy : Option Int → Bool
  | none => true
  | some y => y == 0

/-- Effective year used by the allocator after the PHP falsiness default. -/
def effYear (nowYear : Int) (yearArg : Option Int) : Int :=
  if intArgFalsy yearArg then nowYear else yearArg.getD 0

/-- PHP truthiness test on an optional string: null, the empty string and
"0" are falsy (used for `empty(...)` and `if (!$x)` checks on strings). -/
def strFalsy : Option String → Bool
  | none => true
  | some s => s == "" || s == "0"

/-- In-process document number generator `getNextDocumentNumberInternal`
(api.php lines 2156-2229).  `nowYear` models `date('Y')`.  It validates
the type and year and then runs the counter core; unlike the endpoint it
opens no transaction of its own. -/
def getNextDocumentNumberInternal (st : Store) (nowYear : Int) (t : String)
    (yearArg : Option Int) : Store × Except ApiError String :=
  if !(validDocTypes.contains t) then
    (st, .error (.validation ("Invalid document type: " ++ t)))
  else
    let y := effYear nowYear yearArg
    if !(intArgFalsy yearArg) && (decide (y < 2000) || decide (y > nowYear + 10)) then
      (st, .error (.validation "Invalid year"))
    else
      let out := allocSeqCore st.document_sequences t y
      ({ st with document_sequences := out.1 }, .ok (formatDocNumber t y out.2))

/-- HTTP endpoint `get_next_document_number` (api.php lines 1388-1488);
returns the formatted number together with the raw sequence value.  The
endpoint wraps the counter core in its own transaction; store failures
inside it are not modelled, so the transaction is invisible here. -/
def get_next_document_number (st : Store) (nowYear : Int) (typeArg : Option String)
    (yearArg : Option Int) : Store × Except ApiError (String × Nat) :=
  if strFalsy typeArg then
    (st, .error (.validation "Missing document type"))
  else
    let t := typeArg.getD ""
    if !(validDocTypesEndpoint.contains t) then
      (st, .error (.validation ("Invalid document type: " ++ t)))
    else
      let y := effYear nowYear yearArg
      if !(intArgFalsy yearArg) && (decide (y < 2000) || decide (y > nowYear + 10)) then
        (st, .error (.validation "Invalid year"))
      else
        let out := allocSeqCore st.document_sequences t y
        ({ st with document_sequences := out.1 }, .ok (formatDocNumber t y out.2, out.2))

/-! Subsection: Allocator lemmas -/

theorem seqKeyMatch_seqIncr (t : String) (y : Int) (t2 : String) (y2 : Int) (r : SeqRow) :
    seqKeyMatch t2 y2 (seqIncr t y r) = seqKeyMatch t2 y2 r := by
  unfold seqIncr
  split <;> rfl

theorem find?_map_seqIncr (t : String) (y : Int) (t2 : String) (y2 : Int) (l : List SeqRow) :
    (l.map (seqIncr t y)).find? (seqKeyMatch t2 y2)
      = (l.find? (seqKeyMatch t2 y2)).map (seqIncr t y) := by
  rw [List.find?_map]
  have hfun : (seqKeyMatch t2 y2 ∘ seqIncr t y) = seqKeyMatch t2 y2 := by
    funext r
    exact seqKeyMatch_seqIncr t y t2 y2 r
  rw [hfun]

theorem seqKeyMatch_self (t : String) (y : Int) :
    seqKeyMatch t y (seqRow0 t y) = true := by
  simp [seqKeyMatch, seqRow0]

theorem allocSeqCore_eq_found (seqs : List SeqRow) (t : String) (y : Int) (r : SeqRow)
    (h : seqs.find? (seqKeyMatch t y) = some r) :
    allocSeqCore seqs t y = (seqs.map (seqIncr t y), r.sequence_number + 1) := by
  have hk : seqKeyMatch t y r = true := List.find?_some h
  have h2 : (seqs.map (seqIncr t y)).find? (seqKeyMatch t y) = some (seqIncr t y r) := by
    rw [find?_map_seqIncr, h]
    rfl
  unfold allocSeqCore
  rw [h]
  dsimp only
  rw [h2]
  simp [seqIncr, hk]

theorem allocSeqCore_eq_absent (seqs : List SeqRow) (t : String) (y : Int)
    (h : seqs.find? (seqKeyMatch t y) = none) :
    allocSeqCore seqs t y = ((seqs ++ [seqRow0 t y]).map (seqIncr t y), 1) := by
  have hrow : List.find? (seqKeyMatch t y) [seqRow0 t y] = some (seqRow0 t y) := by
    simp [List.find?, seqKeyMatch_self]
  have h2 : ((seqs ++ [seqRow0 t y]).map (seqIncr t y)).find? (seqKeyMatch t y)
      = some (seqIncr t y (seqRow0 t y)) := by
    rw [find?_map_seqIncr, List.find?_append, h, Option.none_or, hrow]
    rfl
  unfold allocSeqCore
  rw [h]
  dsimp only
  rw [h2]
  simp [seqIncr, seqKeyMatch, seqRow0]

theorem allocSeqCore_val (seqs : List SeqRow) (t : String) (y : Int) :
    (allocSeqCore seqs t y).2 = (seqLookup seqs t y).getD 0 + 1 := by
  cases h : seqs.find? (seqKeyMatch t y) with
  | some r =>
    rw [allocSeqCore_eq_found seqs t y r h]
    simp [seqLookup, h]
  | none =>
    rw [allocSeqCore_eq_absent seqs t y h]
    simp [seqLookup, h]

theorem allocSeqCore_lookup (seqs : List SeqRow) (t : String) (y : Int) :
    seqLookup (allocSeqCore seqs t y).1 t y = some ((seqLookup seqs t y).getD 0 + 1) := by
  cases h : seqs.find? (seqKeyMatch t y) with
  | some r =>
    have hk : seqKeyMatch t y r = true := List.find?_some h
    rw [allocSeqCore_eq_found seqs t y r h]
    unfold seqLookup
    rw [find?_map_seqIncr, h]
    simp [seqIncr, hk, seqLookup, h]
  | none =>
    have hrow : List.find? (seqKeyMatch t y) [seqRow0 t y] = some (seqRow0 t y) := by
      simp [List.find?, seqKeyMatch_self]
    rw [allocSeqCore_eq_absent seqs t y h]
    unfold seqLookup
    rw [find?_map_seqIncr, List.find?_append, h, Option.none_or, hrow]
    simp [seqIncr, seqKeyMatch, seqRow0, seqLookup, h]

theorem allocSeqCore_frame (seqs : List SeqRow) (t : String) (y : Int)
    (t2 : String) (y2 : Int) (h : ¬(t2 = t ∧ y2 = y)) :
    seqLookup (allocSeqCore seqs t y).1 t2 y2 = seqLookup seqs t2 y2 := by
  have hne : ∀ r : SeqRow, seqKeyMatch t2 y2 r = true → seqKeyMatch t y r = false := by
    intro r hr
    simp only [seqKeyMatch, Bool.and_eq_true, beq_iff_eq] at hr
    rcases hr with ⟨hr1, hr2⟩
    by_contra hc
    simp only [Bool.not_eq_false, seqKeyMatch, Bool.and_eq_true, beq_iff_eq] at hc
    rcases hc with ⟨hc1, hc2⟩
    exact h ⟨by rw [← hr1, hc1], by rw [← hr2, hc2]⟩
  have hrow0 : seqKeyMatch t2 y2 (seqRow0 t y) = false := by
    by_contra hc
    simp only [Bool.not_eq_false, seqKeyMatch, seqRow0, Bool.and_eq_true, beq_iff_eq] at hc
    exact h ⟨hc.1.symm, hc.2.symm⟩
  have hmap : ∀ l : List SeqRow,
      seqLookup (l.map (seqIncr t y)) t2 y2 = seqLookup l t2 y2 := by
    intro l
    unfold seqLookup
    rw [find?_map_seqIncr]
    cases h2 : l.find? (seqKeyMatch t2 y2) with
    | some r2 =>
      have hr2 : seqKeyMatch t y r2 = false := hne r2 (List.find?_some h2)
      simp [seqIncr, hr2]
    | none => simp
  cases h1 : seqs.find? (seqKeyMatch t y) with
  | some r =>
    rw [allocSeqCore_eq_found seqs t y r h1]
    exact hmap seqs
  | none =>
    rw [allocSeqCore_eq_absent seqs t y h1]
    rw [hmap (seqs ++ [seqRow0 t y])]
    unfold seqLookup
    rw [List.find?_append]
    cases h2 : seqs.find? (seqKeyMatch t2 y2) with
    | some r2 => rfl
    | none => simp [List.find?, hrow0]

/-! Section: Creation transaction (action `create_receipt_with_items_transaction`,
api.php lines 2232-2485) -/

/-- The `payment` map of the request body. -/
structure PaymentInput where
  amount : Option Rat
  payment_date : Option String
  payment_method : Option String
  payment_number : Option String
  reference_number : Option String
deriving Repr, DecidableEq

/-- The `invoice` map of the request body (fields the handler reads). -/
structure InvoiceInput where
  invoice_number : Option String
  total_amount : Option Rat
deriving Repr, DecidableEq

/-- One element of the `items` array of the request body. -/
structure ItemInput where
  description : Option String
  quantity : Option Rat
  unit_price : Option Rat
  tax_amount : Option Rat
  tax_percentage : Option Rat
deriving Repr, DecidableEq

/-- A full creation request.  `payment = none` models an absent or empty
`payment` array (`$json_body['payment'] ?? []` followed by `empty($payment)`). -/
structure CreateRequest where
  company_id : Option String
  customer_id : Option String
  payment : Option PaymentInput
  invoice : InvoiceInput
  items : List ItemInput
deriving Repr, DecidableEq

/-- Line-total arithmetic of one item (lines 2290-2293 and 2343-2347):
`quantity * unit_price + tax_amount`, absent fields cast to 0. -/
def lineTotalOf (it : ItemInput) : Rat :=
  (it.quantity.getD 0) * (it.unit_price.getD 0) + (it.tax_amount.getD 0)

/-- Invoice amount (lines 2285-2297): the sum of line totals when items are
supplied, else `invoice.total_amount` when present, else 0. -/
def invoiceAmountOf (items : List ItemInput) (inv : InvoiceInput) : Rat :=
  if items.length > 0 then (items.map lineTotalOf).sum
  else match inv.total_amount with
    | some a => a
    | none => 0

/-- Status derivation shared by invoice creation (lines 2304-2312) and the
receipt-deletion recompute (lines 2660-2665): first argument is the paid or
payment amount, second the invoice total. -/
def deriveStatus (p : Rat) (t : Rat) : String :=
  if p ≥ t then "paid"
  else if p > 0 then "partial"
  else "draft"

/-- Status, paid amount and balance due written at creation time
(lines 2299-2312). -/
def creationFigures (paymentAmount : Rat) (invoiceAmount : Rat) : String × Rat × Rat :=
  if paymentAmount ≥ invoiceAmount then ("paid", invoiceAmount, 0)
  else if paymentAmount > 0 then ("partial", paymentAmount, invoiceAmount - paymentAmount)
  else ("draft", 0, invoiceAmount)

/-- Write steps of the creation transaction that the failure oracle can
force to fail (each one is an `INSERT` whose failure throws and triggers
`$conn->rollback()`). -/
inductive CreateStep
  | invoiceInsert
  | invoiceItemInsert (idx : Nat)
  | paymentInsert
  | allocationInsert
  | receiptInsert
  | receiptItemInsert (idx : Nat)
deriving Repr, DecidableEq

/-- Identifiers and excess amount of a successful creation. -/
structure CreateOk where
  invoice_id : Nat
  payment_id : Nat
  allocation_id : Nat
  receipt_id : Nat
  excess_amount : Rat
deriving Repr, DecidableEq

/-- Invoice item row written in the loop at lines 2340-2360. -/
def mkInvoiceItemRow (invoiceId : Nat) (idx : Nat) (it : ItemInput) : InvoiceItemRow :=
  { invoice_id := invoiceId
    description := it.description.getD ""
    quantity := it.quantity.getD 0
    unit_price := it.unit_price.getD 0
    tax_percentage := it.tax_percentage.getD 0
    tax_amount := it.tax_amount.getD 0
    line_total := lineTotalOf it
    sort_order := idx + 1 }

def mkInvoiceItemRows (invoiceId : Nat) (items : List ItemInput) : List InvoiceItemRow :=
  items.enum.map (fun p => mkInvoiceItemRow invoiceId p.1 p.2)

/-- Receipt item row written in the loop at lines 2428-2448 (same snapshot
arithmetic as the invoice items). -/
def mkReceiptItemRow (receiptId : Nat) (idx : Nat) (it : ItemInput) : ReceiptItemRow :=
  { receipt_id := receiptId
    description := it.description.getD ""
    quantity := it.quantity.getD 0
    unit_price := it.unit_price.getD 0
    tax_percentage := it.tax_percentage.getD 0
    tax_amount := it.tax_amount.getD 0
    line_total := lineTotalOf it
    sort_order := idx + 1 }

def mkReceiptItemRows (receiptId : Nat) (items : List ItemInput) : List ReceiptItemRow :=
  items.enum.map (fun p => mkReceiptItemRow receiptId p.1 p.2)

/-- True when some iteration of an item-insert loop is forced to fail. -/
def anyItemFail (fail : CreateStep → Bool) (mk : Nat → CreateStep) (n : Nat) : Bool :=
  (List.range n).any (fun i => fail (mk i))

/-- Number drawing of lines 2252-2275: generate through
`getNextDocumentNumberInternal` only when the caller supplied no number
(PHP `empty(...)`). -/
def drawNumber (st : Store) (nowYear : Int) (provided : Option String) (t : String) :
    Store × Except ApiError String :=
  if strFalsy provided then getNextDocumentNumberInternal st nowYear t none
  else (st, .ok (provided.getD ""))

/-- Invoice row written by the INSERT at lines 2319-2328: note the literal
`'0'` values for `subtotal` and `tax_amount` of line 2325. -/
def mkCreatedInvoiceRow (st2 : Store) (req : CreateRequest) (paymentAmount : Rat)
    (invoiceNumber : String) : InvoiceRow :=
  { id := st2.next_id
    company_id := req.company_id.getD ""
    customer_id := req.customer_id.getD ""
    invoice_number := invoiceNumber
    status := (creationFigures paymentAmount (invoiceAmountOf req.items req.invoice)).1
    subtotal := 0
    tax_amount := 0
    total_amount := invoiceAmountOf req.items req.invoice
    paid_amount := (creationFigures paymentAmount (invoiceAmountOf req.items req.invoice)).2.1
    balance_due := (creationFigures paymentAmount (invoiceAmountOf req.items req.invoice)).2.2 }

/-- Payment row written by the INSERT at lines 2372-2379. -/
def mkCreatedPaymentRow (st2 : Store) (req : CreateRequest) (pay : PaymentInput)
    (paymentAmount : Rat) (paymentNumber : String) : PaymentRow :=
  { id := st2.next_id + 1
    company_id := req.company_id.getD ""
    invoice_id := st2.next_id
    amount := paymentAmount
    payment_method := pay.payment_method.getD "cash"
    payment_number := paymentNumber
    reference_number := pay.reference_number }

/-- Allocation row written by the INSERT at lines 2391-2395: the full
payment amount, uncapped. -/
def mkCreatedAllocationRow (st2 : Store) (paymentAmount : Rat) : AllocationRow :=
  { id := st2.next_id + 2
    payment_id := st2.next_id + 1
    invoice_id := st2.next_id
    amount := paymentAmount }

/-- Receipt row written by the INSERT at lines 2408-2416, with
`excess_amount = max(0, paymentAmount - invoiceAmount)` (line 2406). -/
def mkCreatedReceiptRow (st2 : Store) (req : CreateRequest) (paymentAmount : Rat)
    (receiptNumber : String) : ReceiptRow :=
  { id := st2.next_id + 3
    company_id := req.company_id.getD ""
    payment_id := some (st2.next_id + 1)
    invoice_id := some st2.next_id
    receipt_number := receiptNumber
    total_amount := paymentAmount
    excess_amount := max 0 (paymentAmount - invoiceAmountOf req.items req.invoice) }

/-- The store after all six insert groups of the transaction body succeed. -/
def createSuccessStore (st2 : Store) (req : CreateRequest) (pay : PaymentInput)
    (paymentAmount : Rat) (invoiceNumber : String) (paymentNumber : String)
    (receiptNumber : String) : Store :=
  { st2 with
      next_id := st2.next_id + 4
      invoices := st2.invoices ++ [mkCreatedInvoiceRow st2 req paymentAmount invoiceNumber]
      invoice_items := st2.invoice_items ++ mkInvoiceItemRows st2.next_id req.items
      payments := st2.payments ++ [mkCreatedPaymentRow st2 req pay paymentAmount paymentNumber]
      payment_allocations := st2.payment_allocations ++ [mkCreatedAllocationRow st2 paymentAmount]
      receipts := st2.receipts ++ [mkCreatedReceiptRow st2 req paymentAmount receiptNumber]
      receipt_items := st2.receipt_items ++ mkReceiptItemRows (st2.next_id + 3) req.items }

/-- Success payload of the transaction body. -/
def createSuccessOk (st2 : Store) (req : CreateRequest) (paymentAmount : Rat) : CreateOk :=
  { invoice_id := st2.next_id
    payment_id := st2.next_id + 1
    allocation_id := st2.next_id + 2
    receipt_id := st2.next_id + 3
    excess_amount := max 0 (paymentAmount - invoiceAmountOf req.items req.invoice) }

/-- Body of the creation transaction, lines 2282-2454, given the
pre-transaction store `st2`, the validated payment amount and the already
drawn document numbers.  Every write failure returns `st2` unchanged -
the observable effect of `$conn->rollback()` in the catch block at line
2481.  The id checks mirror the `if (!$...Id)` tests after each insert. -/
def createTxBody (st2 : Store) (req : CreateRequest) (pay : PaymentInput)
    (paymentAmount : Rat) (invoiceNumber : String) (paymentNumber : String)
    (receiptNumber : String) (fail : CreateStep → Bool) :
    Store × Except ApiError CreateOk :=
  if fail .invoiceInsert then
    (st2, .error (.storeFailure "Failed to create invoice"))
  else if st2.next_id == 0 then
    (st2, .error (.storeFailure "Failed to get invoice ID"))
  else if anyItemFail fail .invoiceItemInsert req.items.length then
    (st2, .error (.storeFailure "Failed to create invoice item"))
  else if fail .paymentInsert then
    (st2, .error (.storeFailure "Failed to create payment"))
  else if st2.next_id + 1 == 0 then
    (st2, .error (.storeFailure "Failed to get payment ID"))
  else if fail .allocationInsert then
    (st2, .error (.storeFailure "Failed to create payment allocation"))
  else if fail .receiptInsert then
    (st2, .error (.storeFailure "Failed to create receipt"))
  else if st2.next_id + 3 == 0 then
    (st2, .error (.storeFailure "Failed to get receipt ID"))
  else if anyItemFail fail .receiptItemInsert req.items.length then
    (st2, .error (.storeFailure "Failed to create receipt item"))
  else
    (createSuccessStore st2 req pay paymentAmount invoiceNumber paymentNumber receiptNumber,
     .ok (createSuccessOk st2 req paymentAmount))

/-- Action `create_receipt_with_items_transaction` end to end: request
validation (lines 2243-2250), number drawing before the transaction
(lines 2252-2275), then the transaction body.  `nowYear` models
`date('Y')`; `receiptNumber` models the nondeterministic time/uniqid
derived receipt number of line 2404. -/
def create_receipt_with_items_transaction (st : Store) (nowYear : Int)
    (req : CreateRequest) (receiptNumber : String) (fail : CreateStep → Bool) :
    Store × Except ApiError CreateOk :=
  if strFalsy req.company_id || strFalsy req.customer_id then
    (st, .error (.validation "Missing company_id or customer_id"))
  else
    match req.payment with
    | none => (st, .error (.validation "Missing or invalid payment data"))
    | some pay =>
      match pay.amount with
      | none => (st, .error (.validation "Missing or invalid payment data"))
      | some paymentAmount =>
        match drawNumber st nowYear req.invoice.invoice_number "INV" with
        | (st1, .error _) =>
          (st1, .error (.storeFailure "Failed to generate invoice number"))
        | (st1, .ok invoiceNumber) =>
          match drawNumber st1 nowYear pay.payment_number "PAY" with
          | (st2, .error _) =>
            (st2, .error (.storeFailure "Failed to generate payment number"))
          | (st2, .ok paymentNumber) =>
            createTxBody st2 req pay paymentAmount invoiceNumber paymentNumber
              receiptNumber fail

/-- Sum of `payment_allocations.amount` over the rows of one invoice
(the SQL aggregate at lines 2641-2645). -/
def allocSum (allocs : List AllocationRow) (invoiceId : Nat) : Rat :=
  ((allocs.filter (fun a => a.invoice_id == invoiceId)).map (fun a => a.amount)).sum

/-- Well-formedness the database guarantees through AUTO_INCREMENT ids:
every stored invoice id and every invoice reference of an allocation is
below the fresh-id counter. -/
def storeWF (st : Store) : Bool :=
  st.invoices.all (fun iv => iv.id < st.next_id) &&
  st.payment_allocations.all (fun a => a.invoice_id < st.next_id)

/-! Section: Receipt cascade deletion (action `delete_receipt_with_cascade`,
api.php lines 2486-2760) -/

/-- PHP truthiness on a nullable id column: null and 0 are falsy
(`if ($paymentId)` / `if ($invoiceId)`). -/
def optIdFalsy : Option Nat → Option Nat
  | none => none
  | some 0 => none
  | some n => some n

/-- Write steps of the receipt deletion that the failure oracle can force
to fail. -/
inductive DeleteStep
  | receiptItemsDelete
  | auditLogDelete
  | allocationsDelete
  | paymentDelete
  | invoiceUpdate
  | receiptDelete
deriving Repr, DecidableEq

/-- Success payload of `delete_receipt_with_cascade` (lines 2710-2720). -/
structure DeleteReceiptOk where
  receipt_id : Nat
  receipt_number : String
  invoice_id : Option Nat
  payment_id : Option Nat
  amount_reversed : Rat
deriving Repr, DecidableEq

/-- Step 2 (line 2570): `DELETE FROM receipt_items WHERE receipt_id = rid`. -/
def deleteReceiptItemsStep (st : Store) (rid : Nat) : Store :=
  { st with receipt_items := st.receipt_items.filter (fun ri => !(ri.receipt_id == rid)) }

/-- Step 3 (line 2581): `DELETE FROM payment_audit_log WHERE payment_id = pid`. -/
def deleteAuditLogStep (st : Store) (pid : Nat) : Store :=
  { st with payment_audit_log := st.payment_audit_log.filter (fun a => !(a.payment_id == pid)) }

/-- Step 4 (line 2597): `DELETE FROM payment_allocations WHERE payment_id = pid`. -/
def deleteAllocationsStep (st : Store) (pid : Nat) : Store :=
  { st with payment_allocations := st.payment_allocations.filter (fun a => !(a.payment_id == pid)) }

/-- Step 5 (line 2611): `DELETE FROM payments WHERE id = pid`. -/
def deletePaymentStep (st : Store) (pid : Nat) : Store :=
  { st with payments := st.payments.filter (fun p => !(p.id == pid)) }

/-- Step 6 (lines 2621-2686): fetch the invoice; when found, recompute
paid amount from the remaining allocations, balance due as
`max(0, total - paid)` and the status, and update every matching invoice
row. -/
def recomputeInvoiceStep (st : Store) (iid : Nat) : Store :=
  match st.invoices.find? (fun iv => iv.id == iid) with
  | none => st
  | some inv =>
    let paid := allocSum st.payment_allocations iid
    let balance := max 0 (inv.total_amount - paid)
    let newStatus := deriveStatus paid inv.total_amount
    { st with invoices := st.invoices.map (fun iv =>
        if iv.id == iid then
          { iv with status := newStatus, paid_amount := paid, balance_due := balance }
        else iv) }

/-- Step 7 (line 2690): `DELETE FROM receipts WHERE id = rid`. -/
def deleteReceiptRowStep (st : Store) (rid : Nat) : Store :=
  { st with receipts := st.receipts.filter (fun r => !(r.id == rid)) }

/-- Conditional application of a per-id step on a PHP-truthy id. -/
def applyIfSome (f : Store → Nat → Store) (o : Option Nat) (st : Store) : Store :=
  match o with
  | none => st
  | some x => f st x

/-- Whether the invoice update of step 6 runs (invoice id truthy and the
invoice row found), in which case its write can fail. -/
def invoiceUpdateRuns (st : Store) (iidO : Option Nat) : Bool :=
  match iidO with
  | none => false
  | some iid => (st.invoices.find? (fun iv => iv.id == iid)).isSome

/-- Action `delete_receipt_with_cascade`: parameter checks, the not-found
check before any write, then steps 2-7 inside one transaction.  Any forced
write failure returns the original store (`$conn->rollback()` at line
2734).  Fetch failures (pure reads) are not modelled. -/
def delete_receipt_with_cascade (st : Store) (receiptIdArg : Option Int)
    (fail : DeleteStep → Bool) : Store × Except ApiError DeleteReceiptOk :=
  match receiptIdArg with
  | none => (st, .error (.validation "Missing receipt_id parameter"))
  | some ridInt =>
    if ridInt ≤ 0 then
      (st, .error (.validation "Invalid receipt_id: must be a positive integer"))
    else
      let rid := ridInt.toNat
      match st.receipts.find? (fun r => r.id == rid) with
      | none => (st, .error (.notFound ("Receipt not found with id: " ++ toString rid)))
      | some receipt =>
        let pidO := optIdFalsy receipt.payment_id
        let iidO := optIdFalsy receipt.invoice_id
        if fail .receiptItemsDelete then
          (st, .error (.storeFailure "Failed to delete receipt items"))
        else if pidO.isSome && fail .auditLogDelete then
          (st, .error (.storeFailure "Failed to delete payment audit log"))
        else if pidO.isSome && fail .allocationsDelete then
          (st, .error (.storeFailure "Failed to delete payment allocations"))
        else if pidO.isSome && fail .paymentDelete then
          (st, .error (.storeFailure "Failed to delete payment"))
        else
          let s2 := deleteReceiptItemsStep st rid
          let s3 := applyIfSome deleteAuditLogStep pidO s2
          let s4 := applyIfSome deleteAllocationsStep pidO s3
          let s5 := applyIfSome deletePaymentStep pidO s4
          if invoiceUpdateRuns s5 iidO && fail .invoiceUpdate then
            (st, .error (.storeFailure "Failed to update invoice status"))
          else
            let s6 := applyIfSome recomputeInvoiceStep iidO s5
            if fail .receiptDelete then
              (st, .error (.storeFailure "Failed to delete receipt"))
            else
              (deleteReceiptRowStep s6 rid,
               .ok { receipt_id := rid
                     receipt_number := receipt.receipt_number
                     invoice_id := receipt.invoice_id
                     payment_id := receipt.payment_id
                     amount_reversed := receipt.total_amount })

/-! Section: Invoice cascade deletion (action `delete_invoice_with_cascade`,
api.php lines 1703-1857) -/

/-- Write steps of the invoice deletion. -/
inductive InvoiceDeleteStep
  | auditLogDelete
  | receiptItemsDelete
  | receiptsDelete
  | allocationsDelete
  | paymentsDelete
  | creditNoteAllocationsDelete
  | stockMovementsDelete
  | invoiceItemsDelete
  | invoiceDelete
deriving Repr, DecidableEq

/-- Success payload of `delete_invoice_with_cascade` (lines 1837-1848). -/
structure DeleteInvoiceOk where
  invoice_id : Nat
  invoice_number : String
  payments_count : Nat
deriving Repr, DecidableEq

/-- Whether a receipt row belongs to one of the collected payments. -/
def receiptOfPayments (paymentIds : List Nat) (r : ReceiptRow) : Bool :=
  match r.payment_id with
  | some p => paymentIds.contains p
  | none => false

/-- The `SELECT DISTINCT p.id ...` of step 2 (lines 1744-1748): every
payment linked to the invoice directly or through an allocation. -/
def relatedPaymentIds (st : Store) (iid : Nat) : List Nat :=
  ((st.payments.filter (fun p =>
      p.invoice_id == iid ||
      st.payment_allocations.any (fun a => a.payment_id == p.id && a.invoice_id == iid))).map
    (fun p => p.id)).eraseDups

/-- Steps 3-10 of the invoice cascade (lines 1757-1827) applied in the
source order when every write succeeds. -/
def invoiceCascadeApply (st : Store) (iid : Nat) (paymentIds : List Nat) : Store :=
  let s1 := if !paymentIds.isEmpty then
      { st with payment_audit_log := st.payment_audit_log.filter (fun a =>
          !(paymentIds.contains a.payment_id || a.invoice_id == some iid)) }
    else st
  let receiptIds := (s1.receipts.filter (receiptOfPayments paymentIds)).map (fun r => r.id)
  let s2 := if !paymentIds.isEmpty then
      { s1 with receipt_items := s1.receipt_items.filter (fun ri =>
          !(receiptIds.contains ri.receipt_id)) }
    else s1
  let s3 := if !paymentIds.isEmpty then
      { s2 with receipts := s2.receipts.filter (fun r => !(receiptOfPayments paymentIds r)) }
    else s2
  let s4 := { s3 with payment_allocations := s3.payment_allocations.filter (fun a =>
      !(a.invoice_id == iid)) }
  let s5 := { s4 with payments := s4.payments.filter (fun p => !(p.invoice_id == iid)) }
  let s6 := { s5 with credit_note_allocations := s5.credit_note_allocations.filter (fun c =>
      !(c.invoice_id == iid)) }
  let s7 := { s6 with stock_movements := s6.stock_movements.filter (fun m =>
      !(m.reference_type == "INVOICE" && m.reference_id == iid)) }
  let s8 := { s7 with invoice_items := s7.invoice_items.filter (fun ii =>
      !(ii.invoice_id == iid)) }
  { s8 with invoices := s8.invoices.filter (fun iv => !(iv.id == iid)) }

/-- Action `delete_invoice_with_cascade`: fetch the invoice (NotFound
before any write), collect the ids of every payment linked directly or
through an allocation, then delete dependents in the fixed order of steps
3-10 inside one transaction; any forced failure rolls back to the
original store. -/
def delete_invoice_with_cascade (st : Store) (invoiceIdArg : Option Nat)
    (fail : InvoiceDeleteStep → Bool) : Store × Except ApiError DeleteInvoiceOk :=
  match optIdFalsy invoiceIdArg with
  | none => (st, .error (.validation "Missing invoice_id parameter"))
  | some iid =>
    match st.invoices.find? (fun iv => iv.id == iid) with
    | none => (st, .error (.notFound "Invoice not found"))
    | some inv =>
      let paymentIds := relatedPaymentIds st iid
      if !paymentIds.isEmpty && fail .auditLogDelete then
        (st, .error (.storeFailure "Failed to delete payment audit log"))
      else if !paymentIds.isEmpty && fail .receiptItemsDelete then
        (st, .error (.storeFailure "Failed to delete receipt items"))
      else if !paymentIds.isEmpty && fail .receiptsDelete then
        (st, .error (.storeFailure "Failed to delete receipts"))
      else if fail .allocationsDelete then
        (st, .error (.storeFailure "Failed to delete payment allocations"))
      else if fail .paymentsDelete then
        (st, .error (.storeFailure "Failed to delete payments"))
      else if fail .creditNoteAllocationsDelete then
        (st, .error (.storeFailure "Failed to delete credit note allocations"))
      else if fail .stockMovementsDelete then
        (st, .error (.storeFailure "Failed to delete stock movements"))
      else if fail .invoiceItemsDelete then
        (st, .error (.storeFailure "Failed to delete invoice items"))
      else if fail .invoiceDelete then
        (st, .error (.storeFailure "Failed to delete invoice"))
      else
        (invoiceCascadeApply st iid paymentIds,
         .ok { invoice_id := iid
               invoice_number := inv.invoice_number
               payments_count := paymentIds.length })

/-! Section: Helper lemmas -/

theorem genInternal_shape (st : Store) (nowYear : Int) (t : String) (yArg : Option Int) :
    ∃ seqs, (getNextDocumentNumberInternal st nowYear t yArg).1
      = { st with document_sequences := seqs } := by
  unfold getNextDocumentNumberInternal
  dsimp only
  split
  · exact ⟨st.document_sequences, rfl⟩
  · split
    · exact ⟨st.document_sequences, rfl⟩
    · exact ⟨(allocSeqCore st.document_sequences t (effYear nowYear yArg)).1, rfl⟩

theorem drawNumber_shape (st : Store) (nowYear : Int) (p : Option String) (t : String) :
    ∃ seqs, (drawNumber st nowYear p t).1 = { st with document_sequences := seqs } := by
  unfold drawNumber
  split
  · exact genInternal_shape st nowYear t none
  · exact ⟨st.document_sequences, rfl⟩

theorem drawNumber_provided (st : Store) (nowYear : Int) (p : Option String) (t : String)
    (h : strFalsy p = false) : drawNumber st nowYear p t = (st, .ok (p.getD "")) := by
  unfold drawNumber
  rw [h]
  simp

theorem drawNumber_generated (st : Store) (nowYear : Int) (p : Option String) (t : String)
    (h : strFalsy p = true) (ht : validDocTypes.contains t = true) :
    drawNumber st nowYear p t
      = ({ st with document_sequences := (allocSeqCore st.document_sequences t nowYear).1 },
         .ok (formatDocNumber t nowYear ((seqLookup st.document_sequences t nowYear).getD 0 + 1))) := by
  unfold drawNumber getNextDocumentNumberInternal
  rw [h]
  have ht2 : t ∈ validDocTypes := by simpa using ht
  simp [ht2, effYear, intArgFalsy, allocSeqCore_val]

theorem drawNumber_isOk (st : Store) (nowYear : Int) (p : Option String) (t : String)
    (ht : validDocTypes.contains t = true) :
    ∃ stx n, drawNumber st nowYear p t = (stx, .ok n) ∧
      ∃ seqs, stx = { st with document_sequences := seqs } := by
  cases h : strFalsy p with
  | true =>
    refine ⟨_, _, drawNumber_generated st nowYear p t h ht, ?_⟩
    exact ⟨(allocSeqCore st.document_sequences t nowYear).1, rfl⟩
  | false =>
    refine ⟨st, p.getD "", drawNumber_provided st nowYear p t h, ?_⟩
    exact ⟨st.document_sequences, rfl⟩

theorem createTxBody_error_store (st2 : Store) (req : CreateRequest) (pay : PaymentInput)
    (amt : Rat) (inb pnb rnb : String) (fail : CreateStep → Bool) (e : ApiError)
    (h : (createTxBody st2 req pay amt inb pnb rnb fail).2 = .error e) :
    (createTxBody st2 req pay amt inb pnb rnb fail).1 = st2 := by
  unfold createTxBody at h ⊢
  split_ifs at h ⊢ <;> first | rfl | simp at h

theorem createTxBody_ok (st2 : Store) (req : CreateRequest) (pay : PaymentInput)
    (amt : Rat) (inb pnb rnb : String) (fail : CreateStep → Bool) (out : CreateOk)
    (h : (createTxBody st2 req pay amt inb pnb rnb fail).2 = .ok out) :
    createTxBody st2 req pay amt inb pnb rnb fail
      = (createSuccessStore st2 req pay amt inb pnb rnb, .ok (createSuccessOk st2 req amt)) := by
  unfold createTxBody at h ⊢
  split_ifs at h ⊢ <;> first | rfl | simp at h

/-- Full characterization of a successful creation: validation passed,
each number was drawn (or taken from the request) before the transaction,
and the result is the success store over the intermediate store `st2`,
which differs from `st` only in `document_sequences`. -/
theorem create_ok_shape (st : Store) (nowYear : Int) (req : CreateRequest)
    (rn : String) (fail : CreateStep → Bool) (out : CreateOk)
    (h : (create_receipt_with_items_transaction st nowYear req rn fail).2 = .ok out) :
    ∃ st2 pay amt inb pnb,
      req.payment = some pay ∧ pay.amount = some amt ∧
      (∃ seqs, st2 = { st with document_sequences := seqs }) ∧
      create_receipt_with_items_transaction st nowYear req rn fail
        = (createSuccessStore st2 req pay amt inb pnb rn, .ok (createSuccessOk st2 req amt)) := by
  unfold create_receipt_with_items_transaction at h ⊢
  by_cases hval : (strFalsy req.company_id || strFalsy req.customer_id) = true
  · rw [if_pos hval] at h
    simp at h
  · rw [if_neg hval] at h ⊢
    cases hpay : req.payment with
    | none =>
      rw [hpay] at h
      simp at h
    | some pay =>
      rw [hpay] at h
      dsimp only at h ⊢
      cases hamt : pay.amount with
      | none =>
        rw [hamt] at h
        simp at h
      | some amt =>
        rw [hamt] at h
        dsimp only at h ⊢
        obtain ⟨stx1, n1, hd1, seqs1, hshape1⟩ :=
          drawNumber_isOk st nowYear req.invoice.invoice_number "INV" (by decide)
        rw [hd1] at h ⊢
        dsimp only at h ⊢
        obtain ⟨stx2, n2, hd2, seqs2, hshape2⟩ :=
          drawNumber_isOk stx1 nowYear pay.payment_number "PAY" (by decide)
        rw [hd2] at h ⊢
        dsimp only at h ⊢
        refine ⟨stx2, pay, amt, n1, n2, rfl, hamt, ?_, ?_⟩
        · subst hshape1
          subst hshape2
          exact ⟨seqs2, rfl⟩
        · exact createTxBody_ok stx2 req pay amt n1 n2 rn fail out h

/-- On any error the creation leaves every table except
`document_sequences` exactly as it was. -/
theorem create_error_shape (st : Store) (nowYear : Int) (req : CreateRequest)
    (rn : String) (fail : CreateStep → Bool) (e : ApiError)
    (h : (create_receipt_with_items_transaction st nowYear req rn fail).2 = .error e) :
    ∃ seqs, (create_receipt_with_items_transaction st nowYear req rn fail).1
      = { st with document_sequences := seqs } := by
  unfold create_receipt_with_items_transaction at h ⊢
  by_cases hval : (strFalsy req.company_id || strFalsy req.customer_id) = true
  · rw [if_pos hval]
    exact ⟨st.document_sequences, rfl⟩
  · rw [if_neg hval] at h ⊢
    cases hpay : req.payment with
    | none =>
      exact ⟨st.document_sequences, rfl⟩
    | some pay =>
      rw [hpay] at h
      dsimp only at h ⊢
      cases hamt : pay.amount with
      | none =>
        exact ⟨st.document_sequences, rfl⟩
      | some amt =>
        rw [hamt] at h
        dsimp only at h ⊢
        obtain ⟨stx1, n1, hd1, seqs1, hshape1⟩ :=
          drawNumber_isOk st nowYear req.invoice.invoice_number "INV" (by decide)
        rw [hd1] at h ⊢
        dsimp only at h ⊢
        obtain ⟨stx2, n2, hd2, seqs2, hshape2⟩ :=
          drawNumber_isOk stx1 nowYear pay.payment_number "PAY" (by decide)
        rw [hd2] at h ⊢
        dsimp only at h ⊢
        have hst2 : (createTxBody stx2 req pay amt n1 n2 rn fail).1 = stx2 :=
          createTxBody_error_store stx2 req pay amt n1 n2 rn fail e h
        rw [hst2]
        subst hshape1
        subst hshape2
        exact ⟨seqs2, rfl⟩

theorem allocSum_append (l1 l2 : List AllocationRow) (iid : Nat) :
    allocSum (l1 ++ l2) iid = allocSum l1 iid + allocSum l2 iid := by
  unfold allocSum
  rw [List.filter_append, List.map_append, List.sum_append]

theorem allocSum_eq_zero (l : List AllocationRow) (iid : Nat)
    (h : ∀ a ∈ l, a.invoice_id ≠ iid) : allocSum l iid = 0 := by
  unfold allocSum
  have hf : l.filter (fun a => a.invoice_id == iid) = [] := by
    rw [List.filter_eq_nil_iff]
    intro a ha
    simpa using h a ha
  rw [hf]
  rfl

theorem find?_filter_neg {α : Type} (p : α → Bool) (l : List α) :
    (l.filter (fun x => !(p x))).find? p = none := by
  rw [List.find?_eq_none]
  intro x hx
  have hmem := (List.mem_filter.mp hx).2
  simp only [Bool.not_eq_true'] at hmem
  simp [hmem]

theorem creationFigures_sum (p t : Rat) :
    (creationFigures p t).2.1 + (creationFigures p t).2.2 = t := by
  unfold creationFigures
  split_ifs with h1 h2
  · simp
  · simp
  · simp

theorem recomputeInvoiceStep_allocations (s : Store) (iid : Nat) :
    (recomputeInvoiceStep s iid).payment_allocations = s.payment_allocations := by
  unfold recomputeInvoiceStep
  split <;> rfl

theorem recomputeInvoiceStep_paid (s : Store) (iid : Nat) :
    ∀ iv ∈ (recomputeInvoiceStep s iid).invoices, iv.id = iid →
      iv.paid_amount = allocSum s.payment_allocations iid := by
  unfold recomputeInvoiceStep
  cases hfind : s.invoices.find? (fun iv => iv.id == iid) with
  | none =>
    intro iv hmem hid
    exfalso
    have hall := List.find?_eq_none.mp hfind iv hmem
    simp [hid] at hall
  | some inv =>
    intro iv hmem hid
    dsimp only at hmem
    obtain ⟨x, hx, hfx⟩ := List.mem_map.mp hmem
    by_cases hxid : (x.id == iid) = true
    · rw [if_pos hxid] at hfx
      rw [← hfx]
    · rw [if_neg hxid] at hfx
      exfalso
      apply hxid
      rw [hfx, hid]
      simp

theorem mk_error_ne_ok {σ α : Type} {s1 s2 : σ} {e : ApiError} {o : α}
    (h : (s1, (Except.error e : Except ApiError α)) = (s2, Except.ok o)) : False := by
  have h2 := congrArg Prod.snd h
  simp at h2

/-- Full characterization of a successful receipt deletion: a positive id,
the receipt found before any write, the payload taken from the fetched
row and the result store equal to the steps 2-7 applied in the source
order. -/
theorem delete_receipt_ok_shape (st : Store) (ridArg : Option Int)
    (fail : DeleteStep → Bool) (st2 : Store) (out : DeleteReceiptOk)
    (h : delete_receipt_with_cascade st ridArg fail = (st2, .ok out)) :
    ∃ ridInt receipt, ridArg = some ridInt ∧ 0 < ridInt ∧
      st.receipts.find? (fun r => r.id == ridInt.toNat) = some receipt ∧
      out = { receipt_id := ridInt.toNat
              receipt_number := receipt.receipt_number
              invoice_id := receipt.invoice_id
              payment_id := receipt.payment_id
              amount_reversed := receipt.total_amount } ∧
      st2 = deleteReceiptRowStep
              (applyIfSome recomputeInvoiceStep (optIdFalsy receipt.invoice_id)
                (applyIfSome deletePaymentStep (optIdFalsy receipt.payment_id)
                  (applyIfSome deleteAllocationsStep (optIdFalsy receipt.payment_id)
                    (applyIfSome deleteAuditLogStep (optIdFalsy receipt.payment_id)
                      (deleteReceiptItemsStep st ridInt.toNat)))))
              ridInt.toNat := by
  unfold delete_receipt_with_cascade at h
  cases ridArg with
  | none => exact (mk_error_ne_ok h).elim
  | some ridInt =>
    dsimp only at h
    by_cases hpos : ridInt ≤ 0
    · rw [if_pos hpos] at h
      exact (mk_error_ne_ok h).elim
    · rw [if_neg hpos] at h
      cases hfind : st.receipts.find? (fun r => r.id == ridInt.toNat) with
      | none =>
        rw [hfind] at h
        exact (mk_error_ne_ok h).elim
      | some receipt =>
        rw [hfind] at h
        dsimp only at h
        split_ifs at h <;> try exact (mk_error_ne_ok h).elim
        rw [Prod.mk.injEq] at h
        obtain ⟨h1, h2⟩ := h
        refine ⟨ridInt, receipt, rfl, lt_of_not_le hpos, hfind, ?_, h1.symm⟩
        exact (Except.ok.injEq _ _ |>.mp h2).symm

/-- Minimal characterization of a successful invoice deletion: the id was
truthy and at the end the `invoices` table is a filter dropping every row
with that id. -/
theorem delete_invoice_ok_shape (st : Store) (arg : Option Nat)
    (fail : InvoiceDeleteStep → Bool) (st2 : Store) (out : DeleteInvoiceOk)
    (h : delete_invoice_with_cascade st arg fail = (st2, .ok out)) :
    ∃ iid, optIdFalsy arg = some iid ∧
      st2.invoices.find? (fun iv => iv.id == iid) = none := by
  unfold delete_invoice_with_cascade at h
  cases harg : optIdFalsy arg with
  | none =>
    rw [harg] at h
    exact (mk_error_ne_ok h).elim
  | some iid =>
    rw [harg] at h
    dsimp only at h
    cases hfind : st.invoices.find? (fun iv => iv.id == iid) with
    | none =>
      rw [hfind] at h
      exact (mk_error_ne_ok h).elim
    | some inv =>
      rw [hfind] at h
      dsimp only at h
      split_ifs at h <;> try exact (mk_error_ne_ok h).elim
      rw [Prod.mk.injEq] at h
      obtain ⟨h1, h2⟩ := h
      refine ⟨iid, rfl, ?_⟩
      rw [← h1]
      have hshape : ∃ rows : List InvoiceRow,
          (invoiceCascadeApply st iid (relatedPaymentIds st iid)).invoices
            = rows.filter (fun iv => !(iv.id == iid)) := ⟨_, rfl⟩
      obtain ⟨rows, hr⟩ := hshape
      rw [hr]
      exact find?_filter_neg _ _

/-! Section: Concrete fixtures -/

def noCreateFail : CreateStep → Bool := fun _ => false

def noDeleteFail : DeleteStep → Bool := fun _ => false

def noInvoiceDeleteFail : InvoiceDeleteStep → Bool := fun _ => false

def failReceiptItems : CreateStep → Bool
  | .receiptItemInsert _ => true
  | _ => false

def failInvoiceInsert : CreateStep → Bool
  | .invoiceInsert => true
  | _ => false

def emptyStore : Store :=
  { next_id := 1
    invoices := []
    invoice_items := []
    payments := []
    payment_allocations := []
    receipts := []
    receipt_items := []
    payment_audit_log := []
    credit_note_allocations := []
    stock_movements := []
    document_sequences := [] }

/-- Request with one 2 x 250 item and a 500 payment, numbers supplied. -/
def req0 : CreateRequest :=
  { company_id := some "c1"
    customer_id := some "u1"
    payment := some { amount := some 500, payment_date := none, payment_method := some "cash",
                      payment_number := some "PAY-2026-0001", reference_number := none }
    invoice := { invoice_number := some "INV-2026-0001", total_amount := none }
    items := [{ description := some "widget", quantity := some 2, unit_price := some 250,
                tax_amount := some 0, tax_percentage := some 0 }] }

/-- Request with a 1000 invoice and an overpaying 1200 payment. -/
def reqOver : CreateRequest :=
  { company_id := some "c1"
    customer_id := some "u1"
    payment := some { amount := some 1200, payment_date := none, payment_method := some "cash",
                      payment_number := some "PAY-2026-0002", reference_number := none }
    invoice := { invoice_number := some "INV-2026-0002", total_amount := none }
    items := [{ description := some "widget", quantity := some 1, unit_price := some 1000,
                tax_amount := some 0, tax_percentage := some 0 }] }

/-- Request with no items, no fallback total and a 0 payment: T = 0, P = 0. -/
def reqZero : CreateRequest :=
  { company_id := some "c1"
    customer_id := some "u1"
    payment := some { amount := some 0, payment_date := none, payment_method := some "cash",
                      payment_number := some "PAY-2026-0003", reference_number := none }
    invoice := { invoice_number := some "INV-2026-0003", total_amount := none }
    items := [] }

/-- Request with one item carrying tax: quantity 1, unit price 100, tax 16. -/
def reqTax : CreateRequest :=
  { company_id := some "c1"
    customer_id := some "u1"
    payment := some { amount := some 116, payment_date := none, payment_method := some "cash",
                      payment_number := some "PAY-2026-0004", reference_number := none }
    invoice := { invoice_number := some "INV-2026-0004", total_amount := none }
    items := [{ description := some "widget", quantity := some 1, unit_price := some 100,
                tax_amount := some 16, tax_percentage := some 16 }] }

/-- Request with a negative payment amount of -5. -/
def reqNeg : CreateRequest :=
  { company_id := some "c1"
    customer_id := some "u1"
    payment := some { amount := some (-5), payment_date := none, payment_method := some "cash",
                      payment_number := some "PAY-2026-0005", reference_number := none }
    invoice := { invoice_number := some "INV-2026-0005", total_amount := none }
    items := [] }

/-- Request with no caller-supplied numbers, so both are drawn. -/
def reqNoNums : CreateRequest :=
  { company_id := some "c1"
    customer_id := some "u1"
    payment := some { amount := some 5, payment_date := none, payment_method := some "cash",
                      payment_number := none, reference_number := none }
    invoice := { invoice_number := none, total_amount := none }
    items := [] }

/-- A 1000 invoice fully paid through two receipts of 600 and 400. -/
def store1000 : Store :=
  { next_id := 8
    invoices := [{ id := 1, company_id := "c1", customer_id := "u1",
                   invoice_number := "INV-1", status := "paid", subtotal := 1000,
                   tax_amount := 0, total_amount := 1000, paid_amount := 1000,
                   balance_due := 0 }]
    invoice_items := [{ invoice_id := 1, description := "w", quantity := 1,
                        unit_price := 1000, tax_percentage := 0, tax_amount := 0,
                        line_total := 1000, sort_order := 1 }]
    payments := [{ id := 2, company_id := "c1", invoice_id := 1, amount := 600,
                   payment_method := "cash", payment_number := "PAY-1", reference_number := none },
                 { id := 3, company_id := "c1", invoice_id := 1, amount := 400,
                   payment_method := "cash", payment_number := "PAY-2", reference_number := none }]
    payment_allocations := [{ id := 4, payment_id := 2, invoice_id := 1, amount := 600 },
                            { id := 5, payment_id := 3, invoice_id := 1, amount := 400 }]
    receipts := [{ id := 6, company_id := "c1", payment_id := some 2, invoice_id := some 1,
                   receipt_number := "R600", total_amount := 600, excess_amount := 0 },
                 { id := 7, company_id := "c1", payment_id := some 3, invoice_id := some 1,
                   receipt_number := "R400", total_amount := 400, excess_amount := 0 }]
    receipt_items := [{ receipt_id := 6, description := "w", quantity := 1, unit_price := 600,
                        tax_percentage := 0, tax_amount := 0, line_total := 600, sort_order := 1 },
                      { receipt_id := 7, description := "w", quantity := 1, unit_price := 400,
                        tax_percentage := 0, tax_amount := 0, line_total := 400, sort_order := 1 }]
    payment_audit_log := [{ payment_id := 2, invoice_id := some 1 },
                          { payment_id := 3, invoice_id := some 1 }]
    credit_note_allocations := []
    stock_movements := []
    document_sequences := [] }

/-! Section: Allocator endpoint characterizations -/

theorem yearCheck_false (nowYear : Int) (yArg : Option Int)
    (hy : intArgFalsy yArg = true ∨ (2000 ≤ yArg.getD 0 ∧ yArg.getD 0 ≤ nowYear + 10)) :
    (!(intArgFalsy yArg) &&
      (decide (effYear nowYear yArg < 2000) || decide (effYear nowYear yArg > nowYear + 10)))
      = false := by
  cases hIAF : intArgFalsy yArg with
  | true => rfl
  | false =>
    rcases hy with hy | ⟨hy1, hy2⟩
    · rw [hIAF] at hy
      exact Bool.noConfusion hy
    · have heff : effYear nowYear yArg = yArg.getD 0 := by simp [effYear, hIAF]
      have h1 : decide (effYear nowYear yArg < 2000) = false := by
        rw [heff]
        exact decide_eq_false (not_lt.mpr hy1)
      have h2 : decide (effYear nowYear yArg > nowYear + 10) = false := by
        rw [heff]
        exact decide_eq_false (not_lt.mpr hy2)
      rw [h1, h2]
      rfl

theorem genInternal_spec (st : Store) (nowYear : Int) (t : String) (yArg : Option Int)
    (hc : validDocTypes.contains t = true)
    (hy : intArgFalsy yArg = true ∨ (2000 ≤ yArg.getD 0 ∧ yArg.getD 0 ≤ nowYear + 10)) :
    getNextDocumentNumberInternal st nowYear t yArg
      = ({ st with document_sequences :=
            (allocSeqCore st.document_sequences t (effYear nowYear yArg)).1 },
         .ok (formatDocNumber t (effYear nowYear yArg)
            ((seqLookup st.document_sequences t (effYear nowYear yArg)).getD 0 + 1))) := by
  unfold getNextDocumentNumberInternal
  rw [hc]
  rw [if_neg (by simp)]
  dsimp only
  rw [yearCheck_false nowYear yArg hy]
  rw [if_neg (by simp)]
  rw [allocSeqCore_val]

theorem endpoint_spec (st : Store) (nowYear : Int) (t : String) (yArg : Option Int)
    (hc : validDocTypesEndpoint.contains t = true)
    (hs : strFalsy (some t) = false)
    (hy : intArgFalsy yArg = true ∨ (2000 ≤ yArg.getD 0 ∧ yArg.getD 0 ≤ nowYear + 10)) :
    get_next_document_number st nowYear (some t) yArg
      = ({ st with document_sequences :=
            (allocSeqCore st.document_sequences t (effYear nowYear yArg)).1 },
         .ok (formatDocNumber t (effYear nowYear yArg)
              ((seqLookup st.document_sequences t (effYear nowYear yArg)).getD 0 + 1),
            (seqLookup st.document_sequences t (effYear nowYear yArg)).getD 0 + 1)) := by
  unfold get_next_document_number
  rw [hs]
  rw [if_neg (by simp)]
  dsimp only
  simp only [Option.getD_some]
  rw [hc]
  rw [if_neg (by simp)]
  rw [yearCheck_false nowYear yArg hy]
  rw [if_neg (by simp)]
  rw [allocSeqCore_val]

/-! Section: Claim theorems -/

/-- C1: if any write inside `create_receipt_with_items_transaction` fails -
in particular a forced failure of the `receipt_items` insert - the whole
atomic unit rolls back: afterwards the `invoices`, `invoice_items`,
`payments`, `payment_allocations`, `receipts` and `receipt_items` tables
are exactly as before the call, so no row created by that call exists and
no partial state is observable. -/
theorem c1_creation_rolls_back_on_failure (st : Store) (nowYear : Int)
    (req : CreateRequest) (rn : String) (fail : CreateStep → Bool) (e : ApiError)
    (h : (create_receipt_with_items_transaction st nowYear req rn fail).2 = .error e) :
    (create_receipt_with_items_transaction st nowYear req rn fail).1.invoices = st.invoices ∧
    (create_receipt_with_items_transaction st nowYear req rn fail).1.invoice_items = st.invoice_items ∧
    (create_receipt_with_items_transaction st nowYear req rn fail).1.payments = st.payments ∧
    (create_receipt_with_items_transaction st nowYear req rn fail).1.payment_allocations
      = st.payment_allocations ∧
    (create_receipt_with_items_transaction st nowYear req rn fail).1.receipts = st.receipts ∧
    (create_receipt_with_items_transaction st nowYear req rn fail).1.receipt_items
      = st.receipt_items := by
  obtain ⟨seqs, hs⟩ := create_error_shape st nowYear req rn fail e h
  rw [hs]
  exact ⟨rfl, rfl, rfl, rfl, rfl, rfl⟩

theorem c1_witness :
    (create_receipt_with_items_transaction emptyStore 2026 req0 "REC-X" failReceiptItems).2
      = .error (.storeFailure "Failed to create receipt item") ∧
    ((create_receipt_with_items_transaction emptyStore 2026 req0 "REC-X" failReceiptItems).1.invoices
        = emptyStore.invoices ∧
      (create_receipt_with_items_transaction emptyStore 2026 req0 "REC-X" failReceiptItems).1.invoice_items
        = emptyStore.invoice_items ∧
      (create_receipt_with_items_transaction emptyStore 2026 req0 "REC-X" failReceiptItems).1.payments
        = emptyStore.payments ∧
      (create_receipt_with_items_transaction emptyStore 2026 req0 "REC-X" failReceiptItems).1.payment_allocations
        = emptyStore.payment_allocations ∧
      (create_receipt_with_items_transaction emptyStore 2026 req0 "REC-X" failReceiptItems).1.receipts
        = emptyStore.receipts ∧
      (create_receipt_with_items_transaction emptyStore 2026 req0 "REC-X" failReceiptItems).1.receipt_items
        = emptyStore.receipt_items) :=
  ⟨by decide,
   c1_creation_rolls_back_on_failure emptyStore 2026 req0 "REC-X" failReceiptItems
     (.storeFailure "Failed to create receipt item") (by decide)⟩

/-- C2 (amended): for the status function shared by creation and the
receipt-deletion recompute, the status is "paid" iff P >= T and "partial"
iff 0 < P < T, but "draft" holds iff P <= 0 and P < T (the source tests
`P >= T` first, so for T = 0 and P = 0 the derived status is "paid", not
"draft" as the claim states). -/
theorem c2_status_derivation (T P : Rat) :
    (deriveStatus P T = "paid" ↔ T ≤ P) ∧
    (deriveStatus P T = "partial" ↔ 0 < P ∧ P < T) ∧
    (deriveStatus P T = "draft" ↔ P ≤ 0 ∧ P < T) ∧
    (creationFigures P T).1 = deriveStatus P T := by
  refine ⟨?_, ?_, ?_, ?_⟩
  · unfold deriveStatus
    split_ifs with h1 h2
    · exact iff_of_true rfl h1
    · exact iff_of_false (by decide) (fun hc => h1 hc)
    · exact iff_of_false (by decide) (fun hc => h1 hc)
  · unfold deriveStatus
    split_ifs with h1 h2
    · exact iff_of_false (by decide) (fun hc => (not_le.mpr hc.2) h1)
    · exact iff_of_true rfl ⟨h2, not_le.mp h1⟩
    · exact iff_of_false (by decide) (fun hc => h2 hc.1)
  · unfold deriveStatus
    split_ifs with h1 h2
    · exact iff_of_false (by decide) (fun hc => (not_le.mpr hc.2) h1)
    · exact iff_of_false (by decide) (fun hc => (not_le.mpr h2) hc.1)
    · exact iff_of_true rfl ⟨not_lt.mp h2, not_le.mp h1⟩
  · unfold creationFigures deriveStatus
    split_ifs <;> rfl

/-- C2 counterexample: at invoice total 0 and paid amount 0 the derived
status is "paid" both in the pure derivation and in an end-to-end run of
the creation action, refuting the claim that T = 0, P = 0 derives
"draft". -/
theorem c2_counterexample :
    deriveStatus 0 0 = "paid" ∧
    (creationFigures 0 0).1 = "paid" ∧
    ((create_receipt_with_items_transaction emptyStore 2026 reqZero "REC-X" noCreateFail).1.invoices.map
      (fun iv => iv.status)) = ["paid"] ∧
    ("paid" : String) ≠ "draft" := by
  refine ⟨by decide, by decide, by decide, by decide⟩

/-- C5: for every valid document type and valid year, both the internal
generator and the HTTP endpoint create the (type, year) counter row at 0
if absent, increment it by exactly 1 and return the post-increment value
k+1 formatted as TYPE-YEAR-NNNN through `pad4` (4-digit zero padding,
unbounded beyond); no other counter is touched. -/
theorem c5_document_number_allocation :
    (∀ (st : Store) (nowYear : Int) (t : String) (yArg : Option Int),
      t ∈ validDocTypes →
      (intArgFalsy yArg = true ∨ (2000 ≤ yArg.getD 0 ∧ yArg.getD 0 ≤ nowYear + 10)) →
      (getNextDocumentNumberInternal st nowYear t yArg).2
          = .ok (formatDocNumber t (effYear nowYear yArg)
              ((seqLookup st.document_sequences t (effYear nowYear yArg)).getD 0 + 1)) ∧
        seqLookup (getNextDocumentNumberInternal st nowYear t yArg).1.document_sequences
            t (effYear nowYear yArg)
          = some ((seqLookup st.document_sequences t (effYear nowYear yArg)).getD 0 + 1) ∧
        (∀ (t2 : String) (y2 : Int), ¬(t2 = t ∧ y2 = effYear nowYear yArg) →
          seqLookup (getNextDocumentNumberInternal st nowYear t yArg).1.document_sequences t2 y2
            = seqLookup st.document_sequences t2 y2)) ∧
    (∀ (st : Store) (nowYear : Int) (t : String) (yArg : Option Int),
      t ∈ validDocTypesEndpoint →
      (intArgFalsy yArg = true ∨ (2000 ≤ yArg.getD 0 ∧ yArg.getD 0 ≤ nowYear + 10)) →
      (get_next_document_number st nowYear (some t) yArg).2
          = .ok (formatDocNumber t (effYear nowYear yArg)
                ((seqLookup st.document_sequences t (effYear nowYear yArg)).getD 0 + 1),
              (seqLookup st.document_sequences t (effYear nowYear yArg)).getD 0 + 1) ∧
        seqLookup (get_next_document_number st nowYear (some t) yArg).1.document_sequences
            t (effYear nowYear yArg)
          = some ((seqLookup st.document_sequences t (effYear nowYear yArg)).getD 0 + 1) ∧
        (∀ (t2 : String) (y2 : Int), ¬(t2 = t ∧ y2 = effYear nowYear yArg) →
          seqLookup (get_next_document_number st nowYear (some t) yArg).1.document_sequences t2 y2
            = seqLookup st.document_sequences t2 y2)) := by
  constructor
  · intro st nowYear t yArg ht hy
    have hc : validDocTypes.contains t = true := by simpa using ht
    rw [genInternal_spec st nowYear t yArg hc hy]
    refine ⟨rfl, ?_, ?_⟩
    · exact allocSeqCore_lookup st.document_sequences t (effYear nowYear yArg)
    · intro t2 y2 hne
      exact allocSeqCore_frame st.document_sequences t (effYear nowYear yArg) t2 y2 hne
  · intro st nowYear t yArg ht hy
    have hc : validDocTypesEndpoint.contains t = true := by simpa using ht
    have hs : strFalsy (some t) = false := by
      revert ht
      have : ∀ x ∈ validDocTypesEndpoint, strFalsy (some x) = false := by decide
      exact this t
    rw [endpoint_spec st nowYear t yArg hc hs hy]
    refine ⟨rfl, ?_, ?_⟩
    · exact allocSeqCore_lookup st.document_sequences t (effYear nowYear yArg)
    · intro t2 y2 hne
      exact allocSeqCore_frame st.document_sequences t (effYear nowYear yArg) t2 y2 hne

theorem c5_witness :
    (getNextDocumentNumberInternal emptyStore 2026 "INV" none).2 = .ok "INV-2026-0001" ∧
    seqLookup (getNextDocumentNumberInternal emptyStore 2026 "INV" none).1.document_sequences
        "INV" 2026 = some 1 ∧
    (get_next_document_number emptyStore 2026 (some "QT") (some 2030)).2
      = .ok ("QT-2030-0001", 1) := by
  refine ⟨?_, ?_, ?_⟩
  · exact (c5_document_number_allocation.1 emptyStore 2026 "INV" none (by decide)
      (Or.inl rfl)).1.trans (by decide)
  · exact ((c5_document_number_allocation.1 emptyStore 2026 "INV" none (by decide)
      (Or.inl rfl)).2.1).trans (by decide)
  · exact (c5_document_number_allocation.2 emptyStore 2026 "QT" (some 2030) (by decide)
      (Or.inr ⟨by decide, by decide⟩)).1.trans (by decide)

theorem creationFigures_paid_of_le (p t : Rat) (h0 : 0 ≤ p) (hle : p ≤ t) :
    (creationFigures p t).2.1 = p := by
  unfold creationFigures
  split_ifs with h1 h2
  · show t = p
    exact le_antisymm h1 hle
  · rfl
  · show (0 : Rat) = p
    exact le_antisymm h0 (not_lt.mp h2)

theorem optIdFalsy_some_of_ne (n : Nat) (h : n ≠ 0) : optIdFalsy (some n) = some n := by
  cases n with
  | zero => exact absurd rfl h
  | succ m => rfl

/-- C3 counterexample: a 1200 payment against a 1000 invoice leaves the
stored paid_amount at 1000 while the single allocation row carries 1200,
so right after creation the stored paid_amount differs from the sum of
the invoice's payment_allocations. -/
theorem c3_counterexample :
    ((create_receipt_with_items_transaction emptyStore 2026 reqOver "REC-X" noCreateFail).1.invoices.map
      (fun iv => iv.paid_amount)) = [1000] ∧
    allocSum
      (create_receipt_with_items_transaction emptyStore 2026 reqOver "REC-X" noCreateFail).1.payment_allocations
      1 = 1200 ∧
    ((1000 : Rat) = 1200 → False) := by
  refine ⟨by with_unfolding_all decide, by with_unfolding_all decide, by decide⟩

/-- C3 (amended): after a successful creation the stored paid_amount of
the new invoice equals the sum of its payment_allocations whenever
0 <= paymentAmount <= invoice total (with an overpayment the stored
paid_amount is capped at the total while the allocation row carries the
full payment amount, so the equality fails); after a successful receipt
deletion the equality holds unconditionally for the affected invoice. -/
theorem c3_paid_amount_matches_allocations :
    (∀ (st : Store) (nowYear : Int) (req : CreateRequest) (rn : String)
        (fail : CreateStep → Bool) (out : CreateOk) (pay : PaymentInput) (amt : Rat),
      storeWF st = true →
      req.payment = some pay → pay.amount = some amt →
      0 ≤ amt → amt ≤ invoiceAmountOf req.items req.invoice →
      (create_receipt_with_items_transaction st nowYear req rn fail).2 = .ok out →
      ∀ iv ∈ (create_receipt_with_items_transaction st nowYear req rn fail).1.invoices,
        iv.id = out.invoice_id →
        iv.paid_amount
          = allocSum
              (create_receipt_with_items_transaction st nowYear req rn fail).1.payment_allocations
              iv.id) ∧
    (∀ (st : Store) (ridArg : Option Int) (fail : DeleteStep → Bool)
        (st2 : Store) (out : DeleteReceiptOk),
      delete_receipt_with_cascade st ridArg fail = (st2, .ok out) →
      ∀ iv ∈ st2.invoices, optIdFalsy out.invoice_id = some iv.id →
        iv.paid_amount = allocSum st2.payment_allocations iv.id) := by
  constructor
  · intro st nowYear req rn fail out pay amt hwf hpay hamt h0 hle hok iv hmem hid
    obtain ⟨st2, pay', amt', inb, pnb, hpay', hamt', ⟨seqs, hst2⟩, heq⟩ :=
      create_ok_shape st nowYear req rn fail out hok
    rw [hpay] at hpay'
    injection hpay' with hpe
    subst hpe
    rw [hamt] at hamt'
    injection hamt' with hae
    subst hae
    subst hst2
    rw [heq] at hok hmem ⊢
    dsimp only [createSuccessStore] at hmem ⊢
    have hout : out = createSuccessOk { st with document_sequences := seqs } req amt := by
      injection hok with h2
      exact h2.symm
    subst hout
    dsimp only [createSuccessOk] at hid
    simp only [storeWF, Bool.and_eq_true, List.all_eq_true, decide_eq_true_eq] at hwf
    rcases List.mem_append.mp hmem with hold | hnew
    · exfalso
      have hlt := hwf.1 iv hold
      rw [hid] at hlt
      exact lt_irrefl _ hlt
    · have hiv : iv = mkCreatedInvoiceRow { st with document_sequences := seqs } req amt inb :=
        List.mem_singleton.mp hnew
      subst hiv
      rw [allocSum_append]
      have hzero : allocSum st.payment_allocations
          (mkCreatedInvoiceRow { st with document_sequences := seqs } req amt inb).id = 0 := by
        apply allocSum_eq_zero
        intro a ha
        have := hwf.2 a ha
        dsimp only [mkCreatedInvoiceRow]
        exact Nat.ne_of_lt this
      rw [hzero, zero_add]
      dsimp only [mkCreatedInvoiceRow, mkCreatedAllocationRow]
      rw [creationFigures_paid_of_le amt (invoiceAmountOf req.items req.invoice) h0 hle]
      simp [allocSum]
  · intro st ridArg fail st2 out hdel iv hmem hid
    obtain ⟨ridInt, receipt, hrid, hpos, hfind, hout, hst2⟩ :=
      delete_receipt_ok_shape st ridArg fail st2 out hdel
    subst hout
    subst hst2
    dsimp only at hid
    dsimp only [deleteReceiptRowStep] at hmem ⊢
    rw [hid] at hmem ⊢
    dsimp only [applyIfSome] at hmem ⊢
    rw [recomputeInvoiceStep_allocations]
    exact recomputeInvoiceStep_paid _ iv.id iv hmem rfl

theorem c3_witness :
    ((create_receipt_with_items_transaction emptyStore 2026 req0 "REC-X" noCreateFail).1.invoices.map
      (fun iv => iv.paid_amount)) = [500] ∧
    allocSum
      (create_receipt_with_items_transaction emptyStore 2026 req0 "REC-X" noCreateFail).1.payment_allocations
      1 = 500 ∧
    (∀ iv ∈ (create_receipt_with_items_transaction emptyStore 2026 req0 "REC-X" noCreateFail).1.invoices,
      iv.id = 1 →
      iv.paid_amount
        = allocSum
            (create_receipt_with_items_transaction emptyStore 2026 req0 "REC-X" noCreateFail).1.payment_allocations
            iv.id) ∧
    (∀ iv ∈ (delete_receipt_with_cascade store1000 (some 7) noDeleteFail).1.invoices,
      optIdFalsy (some 1) = some iv.id →
      iv.paid_amount
        = allocSum (delete_receipt_with_cascade store1000 (some 7) noDeleteFail).1.payment_allocations
            iv.id) := by
  refine ⟨by with_unfolding_all decide, by with_unfolding_all decide, ?_, ?_⟩
  · exact c3_paid_amount_matches_allocations.1 emptyStore 2026 req0 "REC-X" noCreateFail
      { invoice_id := 1, payment_id := 2, allocation_id := 3, receipt_id := 4, excess_amount := 0 }
      { amount := some 500, payment_date := none, payment_method := some "cash",
        payment_number := some "PAY-2026-0001", reference_number := none }
      500 (by decide) (by decide) (by decide) (by with_unfolding_all decide)
      (by with_unfolding_all decide) (by with_unfolding_all decide)
  · exact c3_paid_amount_matches_allocations.2 store1000 (some 7) noDeleteFail
      (delete_receipt_with_cascade store1000 (some 7) noDeleteFail).1
      { receipt_id := 7, receipt_number := "R400", invoice_id := some 1, payment_id := some 3,
        amount_reversed := 400 }
      (by with_unfolding_all decide)

/-- C4: a successful receipt deletion is exactly the source-ordered
composite - delete the receipt's receipt_items, then the payment's
payment_audit_log rows, then its payment_allocations, then the payment
row, then recompute and persist the parent invoice's paid_amount,
balance_due and status from the remaining allocations, then delete the
receipt row - all inside one atomic unit; on the 1000 invoice paid by
600 and 400, deleting the 400 receipt leaves (600, 400, partial) and
then deleting the 600 receipt leaves (0, 1000, draft). -/
theorem c4_receipt_cascade_order_and_recompute :
    (∀ (st : Store) (ridInt : Int) (fail : DeleteStep → Bool) (st2 : Store) (out : DeleteReceiptOk),
      delete_receipt_with_cascade st (some ridInt) fail = (st2, .ok out) →
      ∃ receipt, st.receipts.find? (fun r => r.id == ridInt.toNat) = some receipt ∧
        st2 = deleteReceiptRowStep
                (applyIfSome recomputeInvoiceStep (optIdFalsy receipt.invoice_id)
                  (applyIfSome deletePaymentStep (optIdFalsy receipt.payment_id)
                    (applyIfSome deleteAllocationsStep (optIdFalsy receipt.payment_id)
                      (applyIfSome deleteAuditLogStep (optIdFalsy receipt.payment_id)
                        (deleteReceiptItemsStep st ridInt.toNat)))))
                ridInt.toNat) ∧
    (((delete_receipt_with_cascade store1000 (some 7) noDeleteFail).1.invoices.map
        (fun iv => (iv.paid_amount, iv.balance_due, iv.status))) = [(600, 400, "partial")] ∧
      ((delete_receipt_with_cascade (delete_receipt_with_cascade store1000 (some 7) noDeleteFail).1
          (some 6) noDeleteFail).1.invoices.map
        (fun iv => (iv.paid_amount, iv.balance_due, iv.status))) = [(0, 1000, "draft")]) := by
  constructor
  · intro st ridInt fail st2 out h
    obtain ⟨ridInt', receipt, hr, hpos, hfind, hout, hst2⟩ :=
      delete_receipt_ok_shape st (some ridInt) fail st2 out h
    injection hr with hr'
    subst hr'
    exact ⟨receipt, hfind, hst2⟩
  · exact ⟨by with_unfolding_all decide, by with_unfolding_all decide⟩

def c4okPayload : DeleteReceiptOk :=
  { receipt_id := 7, receipt_number := "R400", invoice_id := some 1, payment_id := some 3,
    amount_reversed := 400 }

theorem c4_witness :
    ∃ receipt, store1000.receipts.find? (fun r => r.id == (7 : Int).toNat) = some receipt ∧
      (delete_receipt_with_cascade store1000 (some 7) noDeleteFail).1
        = deleteReceiptRowStep
            (applyIfSome recomputeInvoiceStep (optIdFalsy receipt.invoice_id)
              (applyIfSome deletePaymentStep (optIdFalsy receipt.payment_id)
                (applyIfSome deleteAllocationsStep (optIdFalsy receipt.payment_id)
                  (applyIfSome deleteAuditLogStep (optIdFalsy receipt.payment_id)
                    (deleteReceiptItemsStep store1000 (7 : Int).toNat)))))
            (7 : Int).toNat :=
  c4_receipt_cascade_order_and_recompute.1 store1000 7 noDeleteFail
    (delete_receipt_with_cascade store1000 (some 7) noDeleteFail).1 c4okPayload
    (by with_unfolding_all decide)

/-- C9: for every positive id with no matching receipt (resp. every
truthy id with no matching invoice), cascade deletion fails with NotFound
and returns the store unchanged - zero writes - and in particular a
second deletion of an already-deleted receipt or invoice fails with
NotFound rather than silently succeeding. -/
theorem c9_not_found_terminal :
    (∀ (st : Store) (fail : DeleteStep → Bool) (n : Int), 0 < n →
      st.receipts.find? (fun r => r.id == n.toNat) = none →
      delete_receipt_with_cascade st (some n) fail
        = (st, .error (.notFound ("Receipt not found with id: " ++ toString n.toNat)))) ∧
    (∀ (st : Store) (fail : InvoiceDeleteStep → Bool) (iid : Nat), iid ≠ 0 →
      st.invoices.find? (fun iv => iv.id == iid) = none →
      delete_invoice_with_cascade st (some iid) fail
        = (st, .error (.notFound "Invoice not found"))) ∧
    (∀ (st : Store) (fail : DeleteStep → Bool) (ridArg : Option Int) (st2 : Store)
        (out : DeleteReceiptOk),
      delete_receipt_with_cascade st ridArg fail = (st2, .ok out) →
      delete_receipt_with_cascade st2 ridArg fail
        = (st2, .error (.notFound ("Receipt not found with id: " ++ toString out.receipt_id)))) ∧
    (∀ (st : Store) (fail : InvoiceDeleteStep → Bool) (arg : Option Nat) (st2 : Store)
        (out : DeleteInvoiceOk),
      delete_invoice_with_cascade st arg fail = (st2, .ok out) →
      delete_invoice_with_cascade st2 arg fail
        = (st2, .error (.notFound "Invoice not found"))) := by
  refine ⟨?_, ?_, ?_, ?_⟩
  · intro st fail n hpos hfind
    unfold delete_receipt_with_cascade
    dsimp only
    rw [if_neg (not_le.mpr hpos)]
    rw [hfind]
  · intro st fail iid hne hfind
    unfold delete_invoice_with_cascade
    rw [optIdFalsy_some_of_ne iid hne]
    dsimp only
    rw [hfind]
  · intro st fail ridArg st2 out hdel
    obtain ⟨ridInt, receipt, hrid, hpos, hfind, hout, hst2⟩ :=
      delete_receipt_ok_shape st ridArg fail st2 out hdel
    subst hrid
    subst hout
    subst hst2
    have hnone : (deleteReceiptRowStep
        (applyIfSome recomputeInvoiceStep (optIdFalsy receipt.invoice_id)
          (applyIfSome deletePaymentStep (optIdFalsy receipt.payment_id)
            (applyIfSome deleteAllocationsStep (optIdFalsy receipt.payment_id)
              (applyIfSome deleteAuditLogStep (optIdFalsy receipt.payment_id)
                (deleteReceiptItemsStep st ridInt.toNat)))))
        ridInt.toNat).receipts.find? (fun r => r.id == ridInt.toNat) = none := by
      dsimp only [deleteReceiptRowStep]
      exact find?_filter_neg _ _
    unfold delete_receipt_with_cascade
    dsimp only
    rw [if_neg (not_le.mpr hpos)]
    rw [hnone]
  · intro st fail arg st2 out hdel
    obtain ⟨iid, harg, hnone⟩ := delete_invoice_ok_shape st arg fail st2 out hdel
    unfold delete_invoice_with_cascade
    rw [harg]
    dsimp only
    rw [hnone]

theorem c9_witness :
    delete_receipt_with_cascade emptyStore (some 5) noDeleteFail
      = (emptyStore, .error (.notFound ("Receipt not found with id: " ++ toString (5 : Int).toNat))) ∧
    delete_invoice_with_cascade emptyStore (some 5) noInvoiceDeleteFail
      = (emptyStore, .error (.notFound "Invoice not found")) ∧
    delete_receipt_with_cascade (delete_receipt_with_cascade store1000 (some 7) noDeleteFail).1
        (some 7) noDeleteFail
      = ((delete_receipt_with_cascade store1000 (some 7) noDeleteFail).1,
         .error (.notFound ("Receipt not found with id: " ++ toString c4okPayload.receipt_id))) ∧
    delete_invoice_with_cascade (delete_invoice_with_cascade store1000 (some 1) noInvoiceDeleteFail).1
        (some 1) noInvoiceDeleteFail
      = ((delete_invoice_with_cascade store1000 (some 1) noInvoiceDeleteFail).1,
         .error (.notFound "Invoice not found")) :=
  ⟨c9_not_found_terminal.1 emptyStore noDeleteFail 5 (by decide) (by decide),
   c9_not_found_terminal.2.1 emptyStore noInvoiceDeleteFail 5 (by decide) (by decide),
   c9_not_found_terminal.2.2.1 store1000 noDeleteFail (some 7)
     (delete_receipt_with_cascade store1000 (some 7) noDeleteFail).1 c4okPayload
     (by with_unfolding_all decide),
   c9_not_found_terminal.2.2.2 store1000 noInvoiceDeleteFail (some 1)
     (delete_invoice_with_cascade store1000 (some 1) noInvoiceDeleteFail).1
     { invoice_id := 1, invoice_number := "INV-1", payments_count := 2 }
     (by with_unfolding_all decide)⟩

/-- C6: after every successful creation the stored invoice total equals
the sum of the item line totals (each line total being quantity times
unit price plus tax amount), falling back to the request total (else 0)
when no items are supplied, and paid_amount + balance_due always equals
total_amount. -/
theorem c6_conservation (st : Store) (nowYear : Int) (req : CreateRequest)
    (rn : String) (fail : CreateStep → Bool) (out : CreateOk)
    (h : (create_receipt_with_items_transaction st nowYear req rn fail).2 = .ok out) :
    ∃ row, (create_receipt_with_items_transaction st nowYear req rn fail).1.invoices
        = st.invoices ++ [row] ∧
      row.total_amount = invoiceAmountOf req.items req.invoice ∧
      (req.items ≠ [] → row.total_amount = (req.items.map lineTotalOf).sum) ∧
      (req.items = [] → row.total_amount = req.invoice.total_amount.getD 0) ∧
      row.paid_amount + row.balance_due = row.total_amount ∧
      (∀ r ∈ mkInvoiceItemRows out.invoice_id req.items,
        r.line_total = r.quantity * r.unit_price + r.tax_amount) ∧
      (create_receipt_with_items_transaction st nowYear req rn fail).1.invoice_items
        = st.invoice_items ++ mkInvoiceItemRows out.invoice_id req.items := by
  obtain ⟨st2, pay, amt, inb, pnb, hpay, hamt, ⟨seqs, hst2⟩, heq⟩ :=
    create_ok_shape st nowYear req rn fail out h
  subst hst2
  rw [heq] at h ⊢
  have hout : out = createSuccessOk { st with document_sequences := seqs } req amt := by
    injection h with h2
    exact h2.symm
  subst hout
  refine ⟨mkCreatedInvoiceRow { st with document_sequences := seqs } req amt inb,
    rfl, rfl, ?_, ?_, ?_, ?_, rfl⟩
  · intro hne
    show invoiceAmountOf req.items req.invoice = (req.items.map lineTotalOf).sum
    unfold invoiceAmountOf
    rw [if_pos (List.length_pos.mpr hne)]
  · intro he
    show invoiceAmountOf req.items req.invoice = req.invoice.total_amount.getD 0
    rw [he]
    unfold invoiceAmountOf
    rw [if_neg (by simp)]
    cases htot : req.invoice.total_amount with
    | some a => simp
    | none => simp
  · exact creationFigures_sum amt (invoiceAmountOf req.items req.invoice)
  · intro r hr
    obtain ⟨p, hp, hpe⟩ := List.mem_map.mp hr
    rw [← hpe]
    rfl

theorem c6_witness :
    ∃ row, (create_receipt_with_items_transaction emptyStore 2026 req0 "REC-X" noCreateFail).1.invoices
        = emptyStore.invoices ++ [row] ∧
      row.total_amount = invoiceAmountOf req0.items req0.invoice ∧
      (req0.items ≠ [] → row.total_amount = (req0.items.map lineTotalOf).sum) ∧
      (req0.items = [] → row.total_amount = req0.invoice.total_amount.getD 0) ∧
      row.paid_amount + row.balance_due = row.total_amount ∧
      (∀ r ∈ mkInvoiceItemRows 1 req0.items,
        r.line_total = r.quantity * r.unit_price + r.tax_amount) ∧
      (create_receipt_with_items_transaction emptyStore 2026 req0 "REC-X" noCreateFail).1.invoice_items
        = emptyStore.invoice_items ++ mkInvoiceItemRows 1 req0.items :=
  c6_conservation emptyStore 2026 req0 "REC-X" noCreateFail
    { invoice_id := 1, payment_id := 2, allocation_id := 3, receipt_id := 4, excess_amount := 0 }
    (by with_unfolding_all decide)

/-- C7 (amended): the invoice INSERT at lines 2319-2328 writes the
literal value 0 for both subtotal and tax_amount whatever the items are;
only total_amount is derived from the items as the sum of line totals. -/
theorem c7_subtotal_and_tax_written_as_zero (st : Store) (nowYear : Int)
    (req : CreateRequest) (rn : String) (fail : CreateStep → Bool) (out : CreateOk)
    (h : (create_receipt_with_items_transaction st nowYear req rn fail).2 = .ok out) :
    ∃ row, (create_receipt_with_items_transaction st nowYear req rn fail).1.invoices
        = st.invoices ++ [row] ∧
      row.subtotal = 0 ∧ row.tax_amount = 0 ∧
      row.total_amount = invoiceAmountOf req.items req.invoice := by
  obtain ⟨st2, pay, amt, inb, pnb, hpay, hamt, ⟨seqs, hst2⟩, heq⟩ :=
    create_ok_shape st nowYear req rn fail out h
  subst hst2
  rw [heq]
  exact ⟨mkCreatedInvoiceRow { st with document_sequences := seqs } req amt inb,
    rfl, rfl, rfl, rfl⟩

/-- C7 counterexample: with one item of quantity 1, unit price 100 and
tax 16 the stored invoice row is (subtotal 0, tax_amount 0, total 116) -
the subtotal and tax fields are not the sums 100 and 16 the claim
demands. -/
theorem c7_counterexample :
    ((create_receipt_with_items_transaction emptyStore 2026 reqTax "REC-X" noCreateFail).1.invoices.map
      (fun iv => (iv.subtotal, iv.tax_amount, iv.total_amount))) = [(0, 0, 116)] ∧
    ((0 : Rat) = 100 → False) ∧ ((0 : Rat) = 16 → False) := by
  refine ⟨by with_unfolding_all decide, by decide, by decide⟩

theorem c7_witness :
    ∃ row, (create_receipt_with_items_transaction emptyStore 2026 reqTax "REC-X" noCreateFail).1.invoices
        = emptyStore.invoices ++ [row] ∧
      row.subtotal = 0 ∧ row.tax_amount = 0 ∧
      row.total_amount = invoiceAmountOf reqTax.items reqTax.invoice :=
  c7_subtotal_and_tax_written_as_zero emptyStore 2026 reqTax "REC-X" noCreateFail
    { invoice_id := 1, payment_id := 2, allocation_id := 3, receipt_id := 4, excess_amount := 0 }
    (by with_unfolding_all decide)

/-- C8 (amended): creation fails with a Validation error and leaves the
store completely unchanged - sequences included, since validation runs
before number drawing - whenever company_id or customer_id is PHP-falsy
or the payment map is absent or lacks an amount; a negative amount is
not validated and the creation proceeds. -/
theorem c8_validation_before_any_write (st : Store) (nowYear : Int)
    (req : CreateRequest) (rn : String) (fail : CreateStep → Bool)
    (h : strFalsy req.company_id = true ∨ strFalsy req.customer_id = true ∨
         req.payment = none ∨ (∃ p, req.payment = some p ∧ p.amount = none)) :
    ∃ msg, create_receipt_with_items_transaction st nowYear req rn fail
      = (st, .error (.validation msg)) := by
  unfold create_receipt_with_items_transaction
  by_cases hval : (strFalsy req.company_id || strFalsy req.customer_id) = true
  · rw [if_pos hval]
    exact ⟨_, rfl⟩
  · rw [if_neg hval]
    rcases h with hc | hc | hc | ⟨p, hp, hpa⟩
    · exfalso
      apply hval
      rw [hc]
      rfl
    · exfalso
      apply hval
      rw [hc]
      simp
    · rw [hc]
      exact ⟨_, rfl⟩
    · rw [hp]
      dsimp only
      rw [hpa]
      exact ⟨_, rfl⟩

/-- C8 counterexample: a negative payment amount of -5 with valid ids is
not rejected: the call succeeds and creates invoice, payment (amount -5),
allocation and receipt rows, refuting the claim that a negative amount
fails validation with no row created. -/
theorem c8_counterexample :
    (create_receipt_with_items_transaction emptyStore 2026 reqNeg "REC-X" noCreateFail).2
      = .ok { invoice_id := 1, payment_id := 2, allocation_id := 3, receipt_id := 4,
              excess_amount := 0 } ∧
    ((create_receipt_with_items_transaction emptyStore 2026 reqNeg "REC-X" noCreateFail).1.payments.map
      (fun p => p.amount)) = [(-5 : Rat)] ∧
    (create_receipt_with_items_transaction emptyStore 2026 reqNeg "REC-X" noCreateFail).1.invoices
      ≠ [] := by
  refine ⟨by with_unfolding_all decide, by with_unfolding_all decide,
    by with_unfolding_all decide⟩

/-- Request whose customer_id is absent, for the C8 witness. -/
def reqMissingCustomer : CreateRequest :=
  { company_id := some "c1"
    customer_id := none
    payment := some { amount := some 5, payment_date := none, payment_method := some "cash",
                      payment_number := some "PAY-2026-0009", reference_number := none }
    invoice := { invoice_number := some "INV-2026-0009", total_amount := none }
    items := [] }

theorem c8_witness :
    ∃ msg, create_receipt_with_items_transaction emptyStore 2026 reqMissingCustomer "REC-X" noCreateFail
      = (emptyStore, .error (.validation msg)) :=
  c8_validation_before_any_write emptyStore 2026 reqMissingCustomer "REC-X" noCreateFail
    (Or.inr (Or.inl rfl))

theorem double_alloc_lookup (seqs : List SeqRow) (y : Int) :
    seqLookup (allocSeqCore (allocSeqCore seqs "INV" y).1 "PAY" y).1 "INV" y
      = some ((seqLookup seqs "INV" y).getD 0 + 1) ∧
    seqLookup (allocSeqCore (allocSeqCore seqs "INV" y).1 "PAY" y).1 "PAY" y
      = some ((seqLookup seqs "PAY" y).getD 0 + 1) := by
  constructor
  · rw [allocSeqCore_frame (allocSeqCore seqs "INV" y).1 "PAY" y "INV" y
      (fun hcc => absurd hcc.1 (by decide))]
    exact allocSeqCore_lookup seqs "INV" y
  · rw [allocSeqCore_lookup]
    rw [allocSeqCore_frame seqs "INV" y "PAY" y (fun hcc => absurd hcc.1 (by decide))]

/-- C10: the INV and PAY numbers are drawn - and their counters
incremented - by `getNextDocumentNumberInternal` before the creation
transaction begins and outside any transaction of their own, so when a
write inside the transaction fails and everything rolls back, the
incremented counters persist while the row tables are untouched, and the
next allocation returns k+2: the drawn numbers are never reused and the
sequence is left with a gap. -/
theorem c10_counters_survive_rollback (st : Store) (nowYear : Int) (req : CreateRequest)
    (rn : String) (fail : CreateStep → Bool) (m : String)
    (hc : strFalsy req.company_id = false) (hu : strFalsy req.customer_id = false)
    (hp : ∃ pay amt, req.payment = some pay ∧ pay.amount = some amt ∧
      strFalsy pay.payment_number = true)
    (hinv : strFalsy req.invoice.invoice_number = true)
    (herr : (create_receipt_with_items_transaction st nowYear req rn fail).2
      = .error (.storeFailure m)) :
    seqLookup (create_receipt_with_items_transaction st nowYear req rn fail).1.document_sequences
        "INV" nowYear
      = some ((seqLookup st.document_sequences "INV" nowYear).getD 0 + 1) ∧
    seqLookup (create_receipt_with_items_transaction st nowYear req rn fail).1.document_sequences
        "PAY" nowYear
      = some ((seqLookup st.document_sequences "PAY" nowYear).getD 0 + 1) ∧
    (create_receipt_with_items_transaction st nowYear req rn fail).1.invoices = st.invoices ∧
    (create_receipt_with_items_transaction st nowYear req rn fail).1.payments = st.payments ∧
    (create_receipt_with_items_transaction st nowYear req rn fail).1.receipts = st.receipts ∧
    (getNextDocumentNumberInternal
        (create_receipt_with_items_transaction st nowYear req rn fail).1 nowYear "INV" none).2
      = .ok (formatDocNumber "INV" nowYear
          ((seqLookup st.document_sequences "INV" nowYear).getD 0 + 2)) := by
  obtain ⟨pay, amt, hpay, hamt, hpn⟩ := hp
  unfold create_receipt_with_items_transaction at herr ⊢
  have hval : ¬((strFalsy req.company_id || strFalsy req.customer_id) = true) := by
    rw [hc, hu]
    simp
  rw [if_neg hval] at herr ⊢
  rw [hpay] at herr ⊢
  dsimp only at herr ⊢
  rw [hamt] at herr ⊢
  dsimp only at herr ⊢
  have hd1 := drawNumber_generated st nowYear req.invoice.invoice_number "INV" hinv (by decide)
  rw [hd1] at herr ⊢
  dsimp only at herr ⊢
  have hd2 := drawNumber_generated
    { st with document_sequences := (allocSeqCore st.document_sequences "INV" nowYear).1 }
    nowYear pay.payment_number "PAY" hpn (by decide)
  rw [hd2] at herr ⊢
  dsimp only at herr ⊢
  have hbody := createTxBody_error_store _ _ _ _ _ _ _ _ _ herr
  rw [hbody]
  have hINV : seqLookup
      (allocSeqCore (allocSeqCore st.document_sequences "INV" nowYear).1 "PAY" nowYear).1
      "INV" nowYear
      = some ((seqLookup st.document_sequences "INV" nowYear).getD 0 + 1) :=
    (double_alloc_lookup st.document_sequences nowYear).1
  have hPAY : seqLookup
      (allocSeqCore (allocSeqCore st.document_sequences "INV" nowYear).1 "PAY" nowYear).1
      "PAY" nowYear
      = some ((seqLookup st.document_sequences "PAY" nowYear).getD 0 + 1) :=
    (double_alloc_lookup st.document_sequences nowYear).2
  refine ⟨hINV, hPAY, rfl, rfl, rfl, ?_⟩
  have hspec := genInternal_spec
    { st with document_sequences :=
        (allocSeqCore (allocSeqCore st.document_sequences "INV" nowYear).1 "PAY" nowYear).1 }
    nowYear "INV" none (by decide) (Or.inl rfl)
  calc (getNextDocumentNumberInternal
          { st with document_sequences :=
              (allocSeqCore (allocSeqCore st.document_sequences "INV" nowYear).1 "PAY" nowYear).1 }
          nowYear "INV" none).2
      = .ok (formatDocNumber "INV" (effYear nowYear none)
          ((seqLookup
              (allocSeqCore (allocSeqCore st.document_sequences "INV" nowYear).1 "PAY" nowYear).1
              "INV" (effYear nowYear none)).getD 0 + 1)) := congrArg Prod.snd hspec
    _ = .ok (formatDocNumber "INV" nowYear
          ((seqLookup st.document_sequences "INV" nowYear).getD 0 + 2)) := by
        show Except.ok (formatDocNumber "INV" nowYear
            ((seqLookup
                (allocSeqCore (allocSeqCore st.document_sequences "INV" nowYear).1 "PAY" nowYear).1
                "INV" nowYear).getD 0 + 1)) = _
        rw [hINV]
        rfl

theorem c10_witness :
    seqLookup (create_receipt_with_items_transaction emptyStore 2026 reqNoNums "REC-X"
        failInvoiceInsert).1.document_sequences "INV" 2026 = some 1 ∧
    seqLookup (create_receipt_with_items_transaction emptyStore 2026 reqNoNums "REC-X"
        failInvoiceInsert).1.document_sequences "PAY" 2026 = some 1 ∧
    (create_receipt_with_items_transaction emptyStore 2026 reqNoNums "REC-X"
        failInvoiceInsert).1.invoices = emptyStore.invoices ∧
    (create_receipt_with_items_transaction emptyStore 2026 reqNoNums "REC-X"
        failInvoiceInsert).1.payments = emptyStore.payments ∧
    (create_receipt_with_items_transaction emptyStore 2026 reqNoNums "REC-X"
        failInvoiceInsert).1.receipts = emptyStore.receipts ∧
    (getNextDocumentNumberInternal
        (create_receipt_with_items_transaction emptyStore 2026 reqNoNums "REC-X"
          failInvoiceInsert).1 2026 "INV" none).2
      = .ok (formatDocNumber "INV" 2026 2) :=
  c10_counters_survive_rollback emptyStore 2026 reqNoNums "REC-X" failInvoiceInsert
    "Failed to create invoice" rfl rfl
    ⟨{ amount := some 5, payment_date := none, payment_method := some "cash",
       payment_number := none, reference_number := none }, 5, rfl, rfl, rfl⟩
    rfl (by with_unfolding_all decide)

end HelixApi
